import Mathlib

/-!
# Hiring-Platform frontend: session and access-control layer

A shallow embedding of the client-side session code of the repository:

* `src/frontend/src/api/client.js`  : the axios instance `api` with its request and
  response interceptors (the "HttpGateway" of the specification);
* `src/frontend/src/api/auth.js`    : `me`, the identity call;
* `src/frontend/src/context/AuthContext.js` : `bootstrap`, `onLogin`, `onLogout`
  (the "SessionState" of the specification);
* `src/frontend/src/pages/ApplyJob.jsx` : the `load` effect and the render decision
  (the "ApplicationWorkflowGuard" of the specification);
* `src/frontend/src/pages/ApplicationDetails.jsx` : the `load` effect;
* `src/frontend/src/api/job.js` : `fetchAllJobs`, `fetchJobById`;
* `src/frontend/src/pages/PostJob.jsx`, `JobsList.jsx`, `HiringManagerChat.jsx` : the
  submit payload, the job card action and `formatMessage`.

Effects are made explicit by state passing over a `World` record holding the token
store, `window.location.href`, the React state of `AuthProvider` and the log of the
requests handed to the network.  The network is a parameter `Net`, an arbitrary
function answering each request with a response or a failure.
-/

namespace HiringPlatform

/-! ## JavaScript values -/

/-- JavaScript values as far as the session layer handles them. Numbers are the
integers that occur as ids and status codes, `JsVal.num n` being the Number value of
the numeral `n`. The field list of an object repeats no key. -/
inductive JsVal where
  | undefined
  | null
  | bool (b : Bool)
  | num (n : Int)
  | str (s : String)
  | arr (items : List JsVal)
  | obj (fields : List (String × JsVal))

/-! ## TokenStore (`../store/auth`) -/

/-- Modelled from the spec: the module `src/frontend/src/store/auth.js` (imported by
`client.js` and `AuthContext.js` as `getToken`, `setToken`, `clearToken`) is not part of
the sources. TokenStore, section 4.1: `get() -> Token|absent`, `set(Token)`, `clear()`;
exactly one value is persisted, the bearer token as an opaque string. -/
structure TokenStore where
  token : Option String

/-- Modelled from the spec: `get() -> Token|absent` of the missing `store/auth` module. -/
def getToken (s : TokenStore) : Option String :=
  s.token

/-- Modelled from the spec: `set(Token)` of the missing `store/auth` module; the token is
stored verbatim. -/
def setToken (t : String) (_s : TokenStore) : TokenStore :=
  { token := some t }

/-- Modelled from the spec: `clear()` of the missing `store/auth` module. -/
def clearToken (_s : TokenStore) : TokenStore :=
  { token := none }

/-! ## Requests, responses, errors -/

/-- An axios request config: method, url, the header object (an association list,
first binding wins) and the request body. -/
structure RequestConfig where
  method : String
  url : String
  headers : List (String × String)
  data : JsVal

/-- An axios response: `res.status` and `res.data`. -/
structure Response where
  status : Nat
  data : JsVal

/-- An axios error: `err.message`, the config of the request it belongs to
(`err.config`) and `err.response`, which is absent for a network failure. -/
structure AxiosError where
  message : String
  config : RequestConfig
  response : Option Response

/-- The network and the server behind it: the answer to the request sent as number
`n` (counting from 0). `Except.ok` is a response axios resolves with, `Except.error`
a failure axios rejects with. -/
abbrev Net := Nat → RequestConfig → Except AxiosError Response

/-- Property assignment `headers[k] = v` on the header object. -/
def setHeader (hs : List (String × String)) (k v : String) : List (String × String) :=
  match hs with
  | [] => [(k, v)]
  | (k0, v0) :: rest => if k0 = k then (k, v) :: rest else (k0, v0) :: setHeader rest k v

/-- Property read `headers[k]` on the header object. -/
def getHeader (hs : List (String × String)) (k : String) : Option String :=
  match hs with
  | [] => none
  | (k0, v0) :: rest => if k0 = k then some v0 else getHeader rest k

/-! ## The world -/

/-- Everything the session layer reads or writes: the token store,
`window.location.href`, the React state `user` (`JsVal.null` is "absent") and
`loading` of `AuthProvider`, and the requests handed to the network so far, oldest
first. -/
structure World where
  store : TokenStore
  href : String
  user : JsVal
  loading : Bool
  sent : List RequestConfig

/-- `useState(null)` and `useState(true)` in `AuthProvider`, around an arbitrary store
content and location. -/
def World.initial (store : TokenStore) (href : String) : World :=
  { store := store, href := href, user := JsVal.null, loading := true, sent := [] }

/-- React state setter `setUser`. -/
def setUser (u : JsVal) (w : World) : World :=
  { w with user := u }

/-- React state setter `setLoading`. -/
def setLoading (b : Bool) (w : World) : World :=
  { w with loading := b }

/-! ## `api/client.js` -/

/-- Request interceptor, `client.js` lines 8-12:
`const token = getToken(); if (token) config.headers.Authorization = "Bearer " + token;
return config;`. The test `if (token)` is JavaScript truthiness: an absent token and
the empty string are both falsy. -/
def requestInterceptor (store : TokenStore) (config : RequestConfig) : RequestConfig :=
  match getToken store with
  | some token =>
    if token ≠ "" then
      { config with headers := setHeader config.headers "Authorization" ("Bearer " ++ token) }
    else config
  | none => config

/-- Response interceptor, success handler, `client.js` line 15: `(res) => res`. -/
def responseFulfilled (res : Response) : Response :=
  res

/-- Response interceptor, failure handler, `client.js` lines 16-22:
`if (err?.response?.status === 401) { clearToken(); window.location.href = "/login"; }
return Promise.reject(err);`. Returns the value the promise is rejected with and the
world after the handler. -/
def responseRejected (err : AxiosError) (w : World) : AxiosError × World :=
  match err.response with
  | some r =>
    if r.status = 401 then
      (err, { w with store := clearToken w.store, href := "/login" })
    else (err, w)
  | none => (err, w)

/-- One call through the axios instance `api`: the config passes the request
interceptor, is handed to the network, and the outcome passes the response
interceptor. -/
def request (net : Net) (config : RequestConfig) (w : World) :
    Except AxiosError Response × World :=
  let cfg := requestInterceptor w.store config
  let w1 := { w with sent := w.sent ++ [cfg] }
  match net w.sent.length cfg with
  | Except.ok res => (Except.ok (responseFulfilled res), w1)
  | Except.error err =>
    let r := responseRejected err w1
    (Except.error r.1, r.2)

/-- The config of `api.get(url)`. -/
def getConfig (url : String) : RequestConfig :=
  { method := "get", url := url, headers := [], data := JsVal.undefined }

/-! ## `api/auth.js` -/

/-- Identity call, `auth.js` lines 26-29:
`const res = await api.get("/auth/me"); return res.data;`. -/
def me (net : Net) (w : World) : Except AxiosError JsVal × World :=
  match request net (getConfig "/auth/me") w with
  | (Except.ok res, w1) => (Except.ok res.data, w1)
  | (Except.error e, w1) => (Except.error e, w1)

/-- What the network answers to the identity request issued when the token store is
`store` and `n` requests have been sent before. -/
def identityOutcome (net : Net) (store : TokenStore) (n : Nat) : Except AxiosError Response :=
  net n (requestInterceptor store (getConfig "/auth/me"))

/-! ## `context/AuthContext.js` -/

/-- Session bootstrap, `AuthContext.js` lines 11-28. Without a (truthy) token:
`setUser(null); setLoading(false); return;`. Otherwise
`try { setUser(await meApi()) } catch { clearToken(); setUser(null) }
finally { setLoading(false) }`. -/
def bootstrap (net : Net) (w : World) : World :=
  match getToken w.store with
  | some token =>
    if token ≠ "" then
      match me net w with
      | (Except.ok profile, w1) => setLoading false (setUser profile w1)
      | (Except.error _, w1) =>
        setLoading false (setUser JsVal.null { w1 with store := clearToken w1.store })
    else setLoading false (setUser JsVal.null w)
  | none => setLoading false (setUser JsVal.null w)

/-- Login, `AuthContext.js` lines 34-45: `setLoading(true); setToken(accessToken);
try { const profile = await meApi(); setUser(profile); return profile; }
finally { setLoading(false); }`. There is no `catch`: a failure of the identity call
is rethrown to the caller after the `finally` block. -/
def onLogin (net : Net) (accessToken : String) (w : World) :
    Except AxiosError JsVal × World :=
  let w1 := setLoading true w
  let w2 := { w1 with store := setToken accessToken w1.store }
  match me net w2 with
  | (Except.ok profile, w3) => (Except.ok profile, setLoading false (setUser profile w3))
  | (Except.error e, w3) => (Except.error e, setLoading false w3)

/-- Logout, `AuthContext.js` lines 48-51: `clearToken(); setUser(null);`. -/
def onLogout (w : World) : World :=
  setUser JsVal.null { w with store := clearToken w.store }

/-! ## The session as a machine of start and settle steps

Each `await` splits an async function in the part that runs when it is called and the
part that runs when the awaited request settles. Between the two, other handlers may
run. -/

/-- The request phase of `me`: the identity request passes the request interceptor and
is handed to the network. -/
def meStart (w : World) : World :=
  { w with sent := w.sent ++ [requestInterceptor w.store (getConfig "/auth/me")] }

/-- The settle phase of `me`: the outcome passes the response interceptor and
`res.data` is returned. -/
def meSettle (outcome : Except AxiosError Response) (w : World) :
    Except AxiosError JsVal × World :=
  match outcome with
  | Except.ok res => (Except.ok (responseFulfilled res).data, w)
  | Except.error err =>
    let r := responseRejected err w
    (Except.error r.1, r.2)

/-- The part of `bootstrap` (`AuthContext.js` lines 11-19) up to `await meApi()`. The
flag tells whether the identity request is now outstanding. -/
def bootstrapStart (w : World) : World × Bool :=
  match getToken w.store with
  | some token =>
    if token ≠ "" then (meStart w, true)
    else (setLoading false (setUser JsVal.null w), false)
  | none => (setLoading false (setUser JsVal.null w), false)

/-- The part of `bootstrap` (`AuthContext.js` lines 20-27) after `await meApi()`. -/
def bootstrapSettle (outcome : Except AxiosError Response) (w : World) : World :=
  match meSettle outcome w with
  | (Except.ok profile, w1) => setLoading false (setUser profile w1)
  | (Except.error _, w1) =>
    setLoading false (setUser JsVal.null { w1 with store := clearToken w1.store })

/-- The part of `onLogin` (`AuthContext.js` lines 35-39) up to `await meApi()`. -/
def onLoginStart (accessToken : String) (w : World) : World :=
  let w1 := setLoading true w
  meStart { w1 with store := setToken accessToken w1.store }

/-- The part of `onLogin` (`AuthContext.js` lines 39-44) after `await meApi()`. -/
def onLoginSettle (outcome : Except AxiosError Response) (w : World) :
    Except AxiosError JsVal × World :=
  match meSettle outcome w with
  | (Except.ok profile, w3) => (Except.ok profile, setLoading false (setUser profile w3))
  | (Except.error e, w3) => (Except.error e, setLoading false w3)

/-- Where the bootstrap of the mount effect (`useEffect(() => { bootstrap(); }, [])`)
stands: not yet run, awaiting the identity call, or finished. -/
inductive BootPhase where
  | pending
  | awaiting
  | done
  deriving DecidableEq

/-- The session with its unresolved operations: the world, the phase of the bootstrap,
and the number of `onLogin` calls whose identity call is outstanding. -/
structure Session where
  world : World
  boot : BootPhase
  logins : Nat

/-- The session at mount: `user` absent, `loading` true, the bootstrap still to run. -/
def Session.start (store : TokenStore) (href : String) : Session :=
  { world := World.initial store href, boot := BootPhase.pending, logins := 0 }

/-- What can happen to the session: the mount effect calls `bootstrap`, its identity
call settles, `onLogin` is called, the identity call of an outstanding login settles,
`onLogout` is called. -/
inductive SessionEvent where
  | bootstrapCalled
  | bootstrapSettled (outcome : Except AxiosError Response)
  | loginCalled (accessToken : String)
  | loginSettled (outcome : Except AxiosError Response)
  | logoutCalled

/-- One step of the session; `none` when the event cannot happen in this state. -/
def Session.step (s : Session) (ev : SessionEvent) : Option Session :=
  match ev with
  | SessionEvent.bootstrapCalled =>
    match s.boot with
    | BootPhase.pending =>
      some { s with
        world := (bootstrapStart s.world).1
        boot := if (bootstrapStart s.world).2 then BootPhase.awaiting else BootPhase.done }
    | _ => none
  | SessionEvent.bootstrapSettled outcome =>
    match s.boot with
    | BootPhase.awaiting =>
      some { s with world := bootstrapSettle outcome s.world, boot := BootPhase.done }
    | _ => none
  | SessionEvent.loginCalled accessToken =>
    some { s with world := onLoginStart accessToken s.world, logins := s.logins + 1 }
  | SessionEvent.loginSettled outcome =>
    if s.logins = 0 then none
    else some { s with world := (onLoginSettle outcome s.world).2, logins := s.logins - 1 }
  | SessionEvent.logoutCalled =>
    some { s with world := onLogout s.world }

/-- Run a sequence of events, oldest first. -/
def Session.run (s : Session) (evs : List SessionEvent) : Option Session :=
  match evs with
  | [] => some s
  | ev :: rest =>
    match s.step ev with
    | some s1 => Session.run s1 rest
    | none => none

/-- The guard of the response failure handler: `err?.response?.status === 401`. -/
def isUnauthorized (err : AxiosError) : Bool :=
  match err.response with
  | some r => r.status == 401
  | none => false

/-- The response failure handler run on a sequence of errors, one after another. -/
def handleRejections (errs : List AxiosError) (w : World) : World :=
  errs.foldl (fun acc e => (responseRejected e acc).2) w

/-! ## JavaScript operators on values -/

/-- JavaScript truthiness, as tested by `if (v)`, `!v` and `a && b`. -/
def truthy (v : JsVal) : Bool :=
  match v with
  | JsVal.undefined => false
  | JsVal.null => false
  | JsVal.bool b => b
  | JsVal.num n => n != 0
  | JsVal.str s => s != ""
  | JsVal.arr _ => true
  | JsVal.obj _ => true

/-- The value bound to key `k` in the fields of an object, `undefined` without one. -/
def lookupField (fields : List (String × JsVal)) (k : String) : JsVal :=
  match fields with
  | [] => JsVal.undefined
  | (k0, v0) :: rest => if k0 = k then v0 else lookupField rest k

/-- Optional property read `v?.k` for the data properties read by the pages (`role`,
`has_applied`): `undefined` on `null` and `undefined`, the field of an object, and
`undefined` on the other values, which have no such property. -/
def optProp (v : JsVal) (k : String) : JsVal :=
  match v with
  | JsVal.obj fields => lookupField fields k
  | _ => JsVal.undefined

/-- Strict equality with a string literal, `v === "s"`. -/
def strictEqStr (v : JsVal) (s : String) : Bool :=
  match v with
  | JsVal.str t => t == s
  | _ => false

/-! ## `pages/ApplyJob.jsx` -/

/-- A call `navigate(path, { replace })` of the router. -/
structure Navigation where
  path : String
  replace : Bool

/-- The state of the `ApplyJob` view that `load` and the render decision touch: `job`,
`loading`, `err`, `success`, and the calls to `navigate` it has made, oldest first. -/
structure ApplyJobView where
  job : JsVal
  loading : Bool
  err : String
  success : String
  navigations : List Navigation

/-- `ApplyJob` at mount: `useState(null)`, `useState(true)`, `useState("")` twice. -/
def ApplyJobView.initial : ApplyJobView :=
  { job := JsVal.null, loading := true, err := "", success := "", navigations := [] }

/-- The part of `load` (`ApplyJob.jsx` lines 41-46) up to `await fetchJobById(jobId)`:
`setLoading(true); setErr(""); setSuccess("");`. -/
def ApplyJob.loadStart (v : ApplyJobView) : ApplyJobView :=
  { v with loading := true, err := "", success := "" }

/-- The `finally` block of `load` (`ApplyJob.jsx` lines 63-65):
`if (!cancelled) setLoading(false);`. -/
def ApplyJob.loadFinally (cancelled : Bool) (v : ApplyJobView) : ApplyJobView :=
  if !cancelled then { v with loading := false } else v

/-- The part of `load` (`ApplyJob.jsx` lines 46-65) after `await fetchJobById(jobId)`.
`outcome` is what the fetch resolved or rejected with, `cancelled` the flag of the
effect at that moment (set by the cleanup at unmount), `user` the session user and
`jobId` the route parameter. Every `return` inside `try` runs the `finally` block. -/
def ApplyJob.loadResume (user : JsVal) (jobId : String) (cancelled : Bool)
    (outcome : Except AxiosError JsVal) (v : ApplyJobView) : ApplyJobView :=
  match outcome with
  | Except.ok j =>
    if !truthy j then
      ApplyJob.loadFinally cancelled
        (if !cancelled then { v with err := "Job not found" } else v)
    else if cancelled then ApplyJob.loadFinally cancelled v
    else
      let v1 := { v with job := j }
      if strictEqStr (optProp user "role") "applicant" && truthy (optProp j "has_applied") then
        ApplyJob.loadFinally cancelled
          { v1 with
            navigations := v1.navigations ++
              [{ path := "/jobs/" ++ jobId ++ "/application", replace := true }] }
      else ApplyJob.loadFinally cancelled v1
  | Except.error _ =>
    ApplyJob.loadFinally cancelled
      (if !cancelled then { v with err := "Failed to load job" } else v)

/-- The whole `load` of `ApplyJob` for a given outcome of the fetch. -/
def ApplyJob.load (user : JsVal) (jobId : String) (cancelled : Bool)
    (outcome : Except AxiosError JsVal) (v : ApplyJobView) : ApplyJobView :=
  ApplyJob.loadResume user jobId cancelled outcome (ApplyJob.loadStart v)

/-- What `ApplyJob` renders. -/
inductive ApplyJobScreen where
  | loadingNotice
  | errorNotice (msg : String)
  | notFoundNotice
  | applyForm

/-- The render decision of `ApplyJob` (`ApplyJob.jsx` lines 155-159):
`if (loading) ...Loading; if (err && !job) ...err; if (!job) ...Job not found;`
and otherwise the page with the apply form. -/
def ApplyJob.render (v : ApplyJobView) : ApplyJobScreen :=
  if v.loading then ApplyJobScreen.loadingNotice
  else if v.err != "" && !truthy v.job then ApplyJobScreen.errorNotice v.err
  else if !truthy v.job then ApplyJobScreen.notFoundNotice
  else ApplyJobScreen.applyForm

/-! ## `pages/ApplicationDetails.jsx` -/

/-- The state of the `ApplicationDetails` view (`ApplicationDetails.jsx` lines 11-17). -/
structure DetailsView where
  job : JsVal
  jobErr : String
  loading : Bool
  myApplication : JsVal
  appLoading : Bool
  appErr : String

/-- `ApplicationDetails` at mount. -/
def DetailsView.initial : DetailsView :=
  { job := JsVal.null, jobErr := "", loading := true, myApplication := JsVal.null,
    appLoading := false, appErr := "" }

/-- The part of `load` (`ApplicationDetails.jsx` lines 23-28) up to
`await fetchJobById(jobId)`: `setLoading(true); setJobErr(""); setAppErr("");`. -/
def ApplicationDetails.loadStart (v : DetailsView) : DetailsView :=
  { v with loading := true, jobErr := "", appErr := "" }

/-- The `catch` block of `load` (`ApplicationDetails.jsx` lines 34-39). -/
def ApplicationDetails.loadCatch (cancelled : Bool) (v : DetailsView) : DetailsView :=
  if !cancelled then { v with appErr := "Could not load your application for this job." }
  else v

/-- The `finally` block of `load` (`ApplicationDetails.jsx` lines 39-44). -/
def ApplicationDetails.loadFinally (cancelled : Bool) (v : DetailsView) : DetailsView :=
  if !cancelled then { v with appLoading := false, loading := false } else v

/-- The part of `load` (`ApplicationDetails.jsx` lines 28-32) between the two awaits:
`if (!cancelled) setJob(j); setAppLoading(true);` and then the second fetch is issued,
or `catch` and `finally` when the job fetch was rejected. The flag tells whether the
my-application fetch is now outstanding. -/
def ApplicationDetails.loadAfterJob (cancelled : Bool) (outcome : Except AxiosError JsVal)
    (v : DetailsView) : DetailsView × Bool :=
  match outcome with
  | Except.ok j =>
    let v1 := if !cancelled then { v with job := j } else v
    ({ v1 with appLoading := true }, true)
  | Except.error _ =>
    (ApplicationDetails.loadFinally cancelled (ApplicationDetails.loadCatch cancelled v), false)

/-- The part of `load` (`ApplicationDetails.jsx` lines 32-44) after
`await fetchMyApplication(jobId)`. -/
def ApplicationDetails.loadAfterApplication (cancelled : Bool)
    (outcome : Except AxiosError JsVal) (v : DetailsView) : DetailsView :=
  match outcome with
  | Except.ok app =>
    ApplicationDetails.loadFinally cancelled
      (if !cancelled then { v with myApplication := app } else v)
  | Except.error _ =>
    ApplicationDetails.loadFinally cancelled (ApplicationDetails.loadCatch cancelled v)

/-! ## `api/auth.js`: `login` -/

/-- The config of `api.post(url, data)`. -/
def postConfig (url : String) (data : JsVal) : RequestConfig :=
  { method := "post", url := url, headers := [], data := data }

/-- What the network answers to a request of config `config` issued from world `w`. -/
def answer (net : Net) (config : RequestConfig) (w : World) : Except AxiosError Response :=
  net w.sent.length (requestInterceptor w.store config)

/-- Credentials exchange, `auth.js` lines 11-24:
`try { const res = await api.post("/auth/login", payload); } catch (error) {
console.log(error); }` followed by
`const res = await api.post("/auth/login", payload); return res.data;`.
The result of the first call is dropped and its failure is only logged; the second call
decides the result. -/
def login (net : Net) (payload : JsVal) (w : World) : Except AxiosError JsVal × World :=
  let first := request net (postConfig "/auth/login" payload) w
  match request net (postConfig "/auth/login" payload) first.2 with
  | (Except.ok res, w2) => (Except.ok res.data, w2)
  | (Except.error e, w2) => (Except.error e, w2)

/-! ## AccessGuard (`components/RequireAuth`, `components/RequireRole`) -/

/-- What a guard decides: nothing yet, a redirect to the login entry point, the
access-denied state, or the wrapped view. -/
inductive GuardDecision where
  | placeholder
  | redirectToLogin
  | accessDenied
  | renderView
  deriving DecidableEq

/-- Modelled from the spec: `src/frontend/src/components/RequireAuth.js` is imported by
`App.js` but is not part of the sources. Section 4.4: while `loading`, render
nothing/placeholder; once resolved, if `user` is absent redirect to the login entry
point, otherwise render the wrapped view. -/
def RequireAuth (user : JsVal) (loading : Bool) : GuardDecision :=
  if loading then GuardDecision.placeholder
  else
    match user with
    | JsVal.null => GuardDecision.redirectToLogin
    | _ => GuardDecision.renderView

/-- Modelled from the spec: `src/frontend/src/components/RequireRole.js` is imported by
`App.js` but is not part of the sources. Section 4.4: same loading gate; once resolved,
if `user` is absent redirect to login; if `user.role !== role` deny access (an
access-denied state, not a redirect); otherwise render the protected view. -/
def RequireRole (role : String) (user : JsVal) (loading : Bool) : GuardDecision :=
  if loading then GuardDecision.placeholder
  else
    match user with
    | JsVal.null => GuardDecision.redirectToLogin
    | _ =>
      if strictEqStr (optProp user "role") role then GuardDecision.renderView
      else GuardDecision.accessDenied

/-! ## JavaScript strings -/

/-- The characters `String.prototype.trim` strips: white space (tab, vertical tab, form
feed, space, no-break space, the space separators, the byte order mark) and line
terminators, by code point. -/
def isJsSpace (c : Char) : Bool :=
  c.toNat = 9 || c.toNat = 10 || c.toNat = 11 || c.toNat = 12 || c.toNat = 13 ||
  c.toNat = 32 || c.toNat = 160 || c.toNat = 5760 ||
  (8192 ≤ c.toNat && c.toNat ≤ 8202) || c.toNat = 8232 || c.toNat = 8233 ||
  c.toNat = 8239 || c.toNat = 8287 || c.toNat = 12288 || c.toNat = 65279

/-- `s.trim()`. -/
def jsTrim (s : String) : String :=
  String.mk ((s.toList.dropWhile isJsSpace).reverse.dropWhile isJsSpace).reverse

/-- Whether a value is `null` or `undefined`: reading a property of it throws. -/
def isNullish (v : JsVal) : Bool :=
  match v with
  | JsVal.undefined => true
  | JsVal.null => true
  | _ => false

/-- The number of binary digits of `n`, computed with `fuel` halvings. -/
def bitLengthFuel (fuel n : Nat) : Nat :=
  match fuel with
  | 0 => 0
  | f + 1 => if n = 0 then 0 else bitLengthFuel f (n / 2) + 1

/-- The number of binary digits of `n`. -/
def bitLength (n : Nat) : Nat :=
  bitLengthFuel n n

/-- The Number value of the non-negative integer `n`: the nearest double, ties to the
even significand; `none` is `Infinity`. A double holds 53 significant bits and at most
1024 binary digits. -/
def nearestDouble (n : Nat) : Option Nat :=
  if bitLength n ≤ 53 then some n
  else
    let e := bitLength n - 53
    let q := n / 2 ^ e
    let r := n % 2 ^ e
    let q1 := if 2 ^ (e - 1) < r ∨ (r = 2 ^ (e - 1) ∧ q % 2 = 1) then q + 1 else q
    if 1024 < bitLength (q1 * 2 ^ e) then none else some (q1 * 2 ^ e)

/-- The digits `s` of `Number::toString` for the integer-valued double `v` with `n`
decimal digits, tried with `k`, `k + 1`, ... significant digits (`fuel` tries): the
least number of digits for which `s * 10 ^ (n - k)` has Number value `v`, and of the two
multiples of `10 ^ (n - k)` around `v` the one closer to `v`, the even one on a tie. -/
def shortestDigits (fuel k n v : Nat) : Nat × Nat :=
  match fuel with
  | 0 => (v, n)
  | f + 1 =>
    if n < k then (v, n)
    else
      let p := 10 ^ (n - k)
      let lo := v / p
      let hi := lo + 1
      let okLo := decide (10 ^ (k - 1) ≤ lo) && decide (nearestDouble (lo * p) = some v)
      let okHi := decide (hi < 10 ^ k) && decide (nearestDouble (hi * p) = some v)
      if okLo && okHi then
        if v - lo * p < hi * p - v then (lo, k)
        else if hi * p - v < v - lo * p then (hi, k)
        else if lo % 2 = 0 then (lo, k) else (hi, k)
      else if okLo then (lo, k)
      else if okHi then (hi, k)
      else shortestDigits f (k + 1) n v

/-- `String(v)` for a non-negative integer-valued double `v` (`Number::toString`): all
its digits below `2 ^ 53`; otherwise the shortest digits that identify `v`, followed by
zeros up to 21 digits, and in exponent form `d.ddde+x` from 22 digits on. -/
def doubleToString (v : Nat) : String :=
  if bitLength v ≤ 53 then toString v
  else
    let n := (Nat.toDigits 10 v).length
    let sk := shortestDigits 17 1 n v
    let digits := Nat.toDigits 10 sk.1
    if n ≤ 21 then String.mk (digits ++ List.replicate (n - sk.2) '0')
    else
      match digits with
      | [] => ""
      | [d] => String.mk [d] ++ "e+" ++ toString (n - 1)
      | d :: rest => String.mk (d :: '.' :: rest) ++ "e+" ++ toString (n - 1)

/-- `String(x)` for the number written as the integer `n`: the string of its Number
value. -/
def jsNumberString (n : Int) : String :=
  match nearestDouble n.natAbs with
  | none => if n < 0 then "-Infinity" else "Infinity"
  | some v => if n < 0 then "-" ++ doubleToString v else doubleToString v

mutual
/-- `String(v)`, which is also the conversion a template literal applies. -/
def jsString : JsVal → String
  | JsVal.undefined => "undefined"
  | JsVal.null => "null"
  | JsVal.bool b => if b then "true" else "false"
  | JsVal.num n => jsNumberString n
  | JsVal.str s => s
  | JsVal.arr items => jsJoinComma items
  | JsVal.obj _ => "[object Object]"
/-- `items.join(",")`, the string conversion of an array: `null` and `undefined`
elements give the empty string. -/
def jsJoinComma : List JsVal → String
  | [] => ""
  | x :: rest =>
    (if isNullish x then "" else jsString x) ++
      (if rest.isEmpty then "" else "," ++ jsJoinComma rest)
end

/-- `items.join(sep)`. -/
def jsJoin (sep : String) (items : List JsVal) : String :=
  String.intercalate sep (items.map fun x => if isNullish x then "" else jsString x)

/-- `s || undefined` for a string `s`. -/
def orUndefined (s : String) : JsVal :=
  if s ≠ "" then JsVal.str s else JsVal.undefined

/-! ## `pages/PostJob.jsx` -/

/-- The fields of the post-job form (`PostJob.jsx` lines 8-11), all kept as strings. -/
structure PostJobForm where
  title : String
  description : String
  location : String
  salary : String

/-- The `onChange` of the salary input (`PostJob.jsx` lines 127-131): the typed value
`v` replaces the state when it is empty or matches `/^[0-9]+$/`. -/
def PostJob.salaryOnChange (v : String) (salary : String) : String :=
  if v = "" ∨ (v ≠ "" ∧ v.toList.all Char.isDigit = true) then v else salary

/-- The memo `canSubmit` (`PostJob.jsx` lines 17-19) as tested by `if (!canSubmit)`:
`title.trim() && description.trim() && location.trim()`. -/
def PostJob.canSubmit (f : PostJobForm) : Bool :=
  jsTrim f.title != "" && jsTrim f.description != "" && jsTrim f.location != ""

/-- The salary sent (`PostJob.jsx` line 35):
`salary.trim() === "" ? null : salary.trim()`. -/
def PostJob.salaryValue (salary : String) : JsVal :=
  if jsTrim salary = "" then JsVal.null else JsVal.str (jsTrim salary)

/-- The payload `onSubmit` passes to `postJob` (`PostJob.jsx` lines 21-44), `none` when
it returns at `if (!canSubmit)` without calling it. -/
def PostJob.onSubmitPayload (f : PostJobForm) : Option JsVal :=
  if PostJob.canSubmit f then
    some (JsVal.obj
      [("title", JsVal.str (jsTrim f.title)),
       ("description", JsVal.str (jsTrim f.description)),
       ("location", JsVal.str (jsTrim f.location)),
       ("salary", PostJob.salaryValue f.salary)])
  else none

/-! ## `pages/ApplyJob.jsx`: `onApply` -/

/-- The fields of the apply form (`ApplyJob.jsx` lines 16-21); `cvFile` is a `File` or
`null`. -/
structure ApplyForm where
  fullName : String
  email : String
  phone : String
  coverLetter : String
  cvFile : JsVal

/-- How the checks of `onApply` end: with `setErr(err)` and a return, or with the call
`applyToJob(jobId, data)`. -/
inductive ApplyAttempt where
  | rejected (err : String)
  | submitted (jobId : String) (data : JsVal)

/-- The part of `onApply` up to the call of `applyToJob` (`ApplyJob.jsx` lines
74-109). -/
def ApplyJob.onApply (user : JsVal) (jobId : String) (form : ApplyForm) : ApplyAttempt :=
  if !truthy user then ApplyAttempt.rejected "Please login to apply"
  else if !strictEqStr (optProp user "role") "applicant" then
    ApplyAttempt.rejected
      "Only applicants can apply to jobs. Please login with an applicant account."
  else if jsTrim form.fullName = "" ∨ jsTrim form.email = "" then
    ApplyAttempt.rejected "Full name and email are required."
  else if !truthy form.cvFile then ApplyAttempt.rejected "Please attach a CV to apply."
  else
    ApplyAttempt.submitted jobId
      (JsVal.obj
        [("full_name", JsVal.str (jsTrim form.fullName)),
         ("email", JsVal.str (jsTrim form.email)),
         ("phone", orUndefined (jsTrim form.phone)),
         ("cover_letter", orUndefined (jsTrim form.coverLetter)),
         ("cv", form.cvFile)])

/-- The test `typeof v === "object" && v !== null`. -/
def isObjectLike (v : JsVal) : Bool :=
  match v with
  | JsVal.arr _ => true
  | JsVal.obj _ => true
  | _ => false

/-- The entries of an array from index `n` on: keys are the indices as strings. -/
def indexedFrom (n : Nat) (items : List JsVal) : List (String × JsVal) :=
  match items with
  | [] => []
  | x :: rest => (toString n, x) :: indexedFrom (n + 1) rest

/-- The array index a property key spells, if any: the decimal without leading zero of
a number below `2 ^ 32 - 1`. -/
def arrayIndexOf (k : String) : Option Nat :=
  if k.toList ≠ [] ∧ k.toList.all Char.isDigit = true ∧
      (k.toList.head? ≠ some '0' ∨ k.toList.length = 1) then
    if k.toList.foldl (fun acc c => acc * 10 + (c.toNat - 48)) 0 < 4294967295 then
      some (k.toList.foldl (fun acc c => acc * 10 + (c.toNat - 48)) 0)
    else none
  else none

/-- Insert an indexed entry into entries sorted by ascending index. -/
def insertByIndex (e : Nat × String × JsVal) (sorted : List (Nat × String × JsVal)) :
    List (Nat × String × JsVal) :=
  match sorted with
  | [] => [e]
  | x :: rest => if e.1 < x.1 then e :: x :: rest else x :: insertByIndex e rest

/-- The own properties of an object in enumeration order: the keys that are array
indices in ascending numeric order, then the other keys in the order they were
created. -/
def ownEntries (fields : List (String × JsVal)) : List (String × JsVal) :=
  (((fields.filterMap fun kv => (arrayIndexOf kv.1).map fun n => (n, kv)).foldr
      insertByIndex []).map fun e => e.2) ++
    fields.filter fun kv => (arrayIndexOf kv.1).isNone

/-- `Object.entries(v)` of an object or array. -/
def objectEntries (v : JsVal) : List (String × JsVal) :=
  match v with
  | JsVal.obj fields => ownEntries fields
  | JsVal.arr items => indexedFrom 0 items
  | _ => []

/-- The text of one field error: `Array.isArray(v) ? v.join(" ") : String(v)`. -/
def fieldErrorText (v : JsVal) : String :=
  match v with
  | JsVal.arr items => jsJoin " " items
  | _ => jsString v

/-- The loop `for (const [k, v] of Object.entries(o)) newFieldErrors[k] = ...` starting
from the empty object. -/
def collectFieldErrors (entries : List (String × JsVal)) : List (String × String) :=
  entries.foldl (fun acc kv => setHeader acc kv.1 (fieldErrorText kv.2)) []

/-- The values `general` and `newFieldErrors` at the end of the `catch` block of
`onApply` (`ApplyJob.jsx` lines 113-135). -/
def ApplyJob.catchParts (error : AxiosError) : String × List (String × String) :=
  let res := match error.response with
    | some r => r.data
    | none => JsVal.undefined
  if truthy res then
    match optProp res "detail" with
    | JsVal.str s => (s, [])
    | detail =>
      if isObjectLike detail then ("", collectFieldErrors (objectEntries detail))
      else if truthy (optProp res "errors") && isObjectLike (optProp res "errors") then
        ("", collectFieldErrors (objectEntries (optProp res "errors")))
      else if truthy (optProp res "message") then (jsString (optProp res "message"), [])
      else ("", [])
  else
    (if error.message ≠ "" then error.message else "Failed to submit application.", [])

/-- The value passed to `setErr` in the `catch` block of `onApply` (`ApplyJob.jsx` line
137): `general || Object.values(newFieldErrors).join(" ") ||
"Failed to submit application."`. -/
def ApplyJob.catchMessage (error : AxiosError) : String :=
  let parts := ApplyJob.catchParts error
  let joined := String.intercalate " " (parts.2.map fun kv => kv.2)
  if parts.1 ≠ "" then parts.1
  else if joined ≠ "" then joined
  else "Failed to submit application."

/-! ## `api/job.js` -/

/-- What an async function of `api/job.js` can reject with: a failure of the request, or
the `TypeError` of reading a property of `null` or `undefined`. -/
inductive Thrown where
  | axios (e : AxiosError)
  | typeError

/-- All jobs, `job.js` lines 8-11:
`const res = await api.get("/job/all"); return res.data;`. -/
def fetchAllJobs (net : Net) (w : World) : Except AxiosError JsVal × World :=
  match request net (getConfig "/job/all") w with
  | (Except.ok res, w1) => (Except.ok res.data, w1)
  | (Except.error e, w1) => (Except.error e, w1)

/-- The search `list.find((j) => String(j.id) === String(jobId))` for a string `jobId`:
the first element whose id converts to `jobId`, `undefined` without one. Reading `j.id`
of a `null` or `undefined` element throws. -/
def findJob (jobId : String) (items : List JsVal) : Except Thrown JsVal :=
  match items with
  | [] => Except.ok JsVal.undefined
  | j :: rest =>
    if isNullish j then Except.error Thrown.typeError
    else if jsString (optProp j "id") = jobId then Except.ok j
    else findJob jobId rest

/-- One job, `job.js` lines 13-22:
`try { const res = await api.get("/job/" + jobId); return res.data; } catch (e) {
const list = await fetchAllJobs();
return Array.isArray(list) ? list.find(...) : null; }`, for the route parameter
`jobId`, a string. -/
def fetchJobById (net : Net) (jobId : String) (w : World) : Except Thrown JsVal × World :=
  match request net (getConfig ("/job/" ++ jobId)) w with
  | (Except.ok res, w1) => (Except.ok res.data, w1)
  | (Except.error _, w1) =>
    match fetchAllJobs net w1 with
    | (Except.ok list, w2) =>
      (match list with
        | JsVal.arr items => findJob jobId items
        | _ => Except.ok JsVal.null, w2)
    | (Except.error e, w2) => (Except.error (Thrown.axios e), w2)

/-! ## `pages/JobsList.jsx` -/

/-- The actions a job card offers (`JobsList.jsx` lines 192-221): the manager's link to
the applications of the job with the id to copy, the link to the existing application,
or the link to the apply page. -/
inductive CardAction where
  | viewApplications (path : String) (copyId : String)
  | viewApplication (path : String)
  | viewApply (path : String)

/-- The action of the card of `job` for session user `user` (`JobsList.jsx` lines
192-221); `none` for a `null` or `undefined` job, on which the card throws at
`job.salary` (line 161). -/
def JobsList.cardAction (user job : JsVal) : Option CardAction :=
  if isNullish job then none
  else if strictEqStr (optProp user "role") "hiring_manager" then
    some (CardAction.viewApplications
      ("/jobs/" ++ jsString (optProp job "id") ++ "/applications")
      (jsString (optProp job "id")))
  else if truthy (optProp job "has_applied") then
    some (CardAction.viewApplication
      ("/jobs/" ++ jsString (optProp job "id") ++ "/application"))
  else some (CardAction.viewApply ("/jobs/" ++ jsString (optProp job "id")))

/-! ## `pages/HiringManagerChat.jsx`: `formatMessage` -/

/-- The pieces of a character sequence between the occurrences of `sep`. -/
def splitChars (sep : Char) (cs : List Char) : List (List Char) :=
  match cs with
  | [] => [[]]
  | c :: rest =>
    if c = sep then [] :: splitChars sep rest
    else
      match splitChars sep rest with
      | piece :: pieces => (c :: piece) :: pieces
      | [] => [[c]]

/-- `s.split(sep)` for a one-character separator. -/
def jsSplit (sep : Char) (s : String) : List String :=
  (splitChars sep s.toList).map String.mk

/-- Whether `pat` occurs in a character sequence. -/
def includesChars (pat : List Char) (cs : List Char) : Bool :=
  match cs with
  | [] => pat.isEmpty
  | c :: rest => pat.isPrefixOf (c :: rest) || includesChars pat rest

/-- The test `line.includes('|')`. -/
def hasPipe (line : String) : Bool :=
  line.toList.contains '|'

/-- The test `line.includes('|') && line.trim().startsWith('|')` that opens a table
(`HiringManagerChat.jsx` line 16). -/
def isTableStart (line : String) : Bool :=
  hasPipe line && (jsTrim line).toList.head? == some '|'

/-- The test `l.includes('---')` for the separator line. -/
def hasDashes (line : String) : Bool :=
  includesChars ['-', '-', '-'] line.toList

/-- The cells of a table line: `row.split('|').map(cell => cell.trim()).filter(cell =>
cell)`. -/
def tableCells (row : String) : List String :=
  ((jsSplit '|' row).map jsTrim).filter fun cell => cell != ""

/-- `lines.findIndex(p)`, with `none` for the result `-1`. -/
def findIndexOf (p : String → Bool) (lines : List String) : Option Nat :=
  match lines with
  | [] => none
  | l :: rest => if p l then some 0 else (findIndexOf p rest).map fun k => k + 1

/-- The index of the first data row (`HiringManagerChat.jsx` lines 29-30):
`separatorIndex >= 0 ? separatorIndex + 1 : 1`. -/
def dataStartIndex (tableLines : List String) : Nat :=
  match findIndexOf hasDashes tableLines with
  | some k => k + 1
  | none => 1

/-- What one iteration of the main loop consumes: a regular line at index `index`, or
the collected `tableLines` starting at index `index`. -/
inductive Block where
  | regularLine (index : Nat) (line : String)
  | tableLines (index : Nat) (lines : List String)
  deriving DecidableEq

/-- The lines a block covers. -/
def Block.lines (b : Block) : List String :=
  match b with
  | Block.regularLine _ line => [line]
  | Block.tableLines _ ls => ls

/-- The index of the first line a block covers. -/
def Block.index (b : Block) : Nat :=
  match b with
  | Block.regularLine i _ => i
  | Block.tableLines i _ => i

/-- The elements `formatMessage` pushes: the `div` of a regular line with key `i`
(its content is the bold split of the line, a function of the line alone, which is not
expanded here), or the table with key `table-i`, its header cells and its rows. -/
inductive Element where
  | textLine (key : Nat) (line : String)
  | table (key : Nat) (headers : List String) (rows : List (List String))
  deriving DecidableEq

/-- The element pushed for a block (`HiringManagerChat.jsx` lines 28-60 and 68-77). -/
def Block.render (b : Block) : Element :=
  match b with
  | Block.regularLine i line => Element.textLine i line
  | Block.tableLines i ls =>
    Element.table i
      (match ls with
        | first :: _ => tableCells first
        | [] => [])
      ((ls.drop (dataStartIndex ls)).map tableCells)

/-- The main loop of `formatMessage` from line index `i` on (`HiringManagerChat.jsx`
lines 12-80). The inner loop collects `tableLines`, the longest run of lines from `i`
that contain `|`; with at least two of them a table is pushed and `i` moves past the
run, otherwise the line is pushed as a regular line and `i` moves by one. -/
def scanBlocks (lines : List String) (i : Nat) : List Block :=
  if h : i < lines.length then
    if isTableStart lines[i] then
      if 2 ≤ ((lines.drop i).takeWhile hasPipe).length then
        Block.tableLines i ((lines.drop i).takeWhile hasPipe) ::
          scanBlocks lines (i + ((lines.drop i).takeWhile hasPipe).length)
      else Block.regularLine i lines[i] :: scanBlocks lines (i + 1)
    else Block.regularLine i lines[i] :: scanBlocks lines (i + 1)
  else []
termination_by lines.length - i
decreasing_by
  all_goals simp_wf
  all_goals omega

/-- The message formatter (`HiringManagerChat.jsx` lines 5-83): `null` for an absent or
empty text, otherwise the elements of the lines of the text. -/
def formatMessage (text : Option String) : Option (List Element) :=
  match text with
  | none => none
  | some t =>
    if t = "" then none
    else some ((scanBlocks (jsSplit '\n' t) 0).map Block.render)

/-! ## Concrete inputs used by the checks below -/

/-- The profile of the bootstrap scenario: `{id:1, email:"a@x.com", role:"applicant"}`. -/
def profileA : JsVal :=
  JsVal.obj [("id", JsVal.num 1), ("email", JsVal.str "a@x.com"), ("role", JsVal.str "applicant")]

/-- A network on which every request succeeds with status 200 and body `d`. -/
def netOk (d : JsVal) : Net :=
  fun _ _ => Except.ok { status := 200, data := d }

/-- The failure of a request `cfg`: with a response of the given status, or without a
response (network failure) when `status` is `none`. -/
def failure (status : Option Nat) (cfg : RequestConfig) : AxiosError :=
  { message := "Request failed", config := cfg,
    response := status.map fun st => { status := st, data := JsVal.null } }

/-- A network on which every request fails as `failure status`. -/
def netFail (status : Option Nat) : Net :=
  fun _ cfg => Except.error (failure status cfg)

/-- A freshly started client at location `/jobs` with the given store content. -/
def freshWorld (tok : Option String) : World :=
  World.initial { token := tok } "/jobs"

/-- A resolved session of user `profileA` holding token `"T1"`. -/
def signedInWorld : World :=
  { store := { token := some "T1" }, href := "/jobs", user := profileA, loading := false,
    sent := [] }

/-- A job record the requesting applicant has already applied to. -/
def appliedJob : JsVal :=
  JsVal.obj [("id", JsVal.num 7), ("title", JsVal.str "Engineer"),
    ("has_applied", JsVal.bool true)]

/-- A job record the requesting applicant has not applied to. -/
def openJob : JsVal :=
  JsVal.obj [("id", JsVal.num 7), ("title", JsVal.str "Engineer"),
    ("has_applied", JsVal.bool false)]

/-- The profile of a hiring manager. -/
def profileM : JsVal :=
  JsVal.obj [("id", JsVal.num 2), ("email", JsVal.str "m@x.com"),
    ("role", JsVal.str "hiring_manager")]

/-- The events of a run: bootstrap with a stored token fails with a 401, then a login is
started, a logout happens while it is outstanding, and the login succeeds. -/
def sampleRun : List SessionEvent :=
  [SessionEvent.bootstrapCalled,
   SessionEvent.bootstrapSettled (Except.error (failure (some 401) (getConfig "/auth/me"))),
   SessionEvent.loginCalled "T2",
   SessionEvent.logoutCalled,
   SessionEvent.loginSettled (Except.ok { status := 200, data := profileA })]

/-- A credentials payload `{email, password}`. -/
def credentials : JsVal :=
  JsVal.obj [("email", JsVal.str "a@x.com"), ("password", JsVal.str "pw")]

/-- A login response body `{access_token, token_type}`. -/
def tokenData : JsVal :=
  JsVal.obj [("access_token", JsVal.str "T1"), ("token_type", JsVal.str "bearer")]

/-- A network on which the first request fails with status 500 and every later one
succeeds with body `d`. -/
def netFirstFails (d : JsVal) : Net :=
  fun n cfg =>
    if n = 0 then Except.error (failure (some 500) cfg)
    else Except.ok { status := 200, data := d }

/-- A filled post-job form with the salary typed as `50000`. -/
def postJobForm : PostJobForm :=
  { title := "Engineer", description := "Build things", location := "London",
    salary := "50000" }

/-- An attached CV, as far as the checks look at it: a `File` object. -/
def cvFile : JsVal :=
  JsVal.obj [("name", JsVal.str "cv.pdf")]

/-- A filled apply form with padded name and blank phone. -/
def applyForm : ApplyForm :=
  { fullName := " Ann Lee ", email := "a@x.com", phone := "  ", coverLetter := "Hello",
    cvFile := cvFile }

/-- An error whose response has status `st` and body `body`. -/
def failureWith (st : Nat) (body : JsVal) : AxiosError :=
  { message := "Request failed", config := postConfig "applications/apply/7" JsVal.undefined,
    response := some { status := st, data := body } }

/-- An error without response and without message. -/
def silentFailure : AxiosError :=
  { message := "", config := postConfig "applications/apply/7" JsVal.undefined,
    response := none }

/-- A job list in which the job with id 7 comes second. -/
def jobList : JsVal :=
  JsVal.arr [JsVal.obj [("id", JsVal.num 3), ("title", JsVal.str "Analyst")], openJob]

/-- A network on which the first request fails with status 404 and the second succeeds
with the job list. -/
def netFallback : Net :=
  fun n cfg =>
    if n = 0 then Except.error (failure (some 404) cfg)
    else Except.ok { status := 200, data := jobList }

/-- The lines of the chat message used in the checks. -/
def chatLines : List String :=
  ["Jobs:", "| id | title |", "|---|---|", "| 7 | Engineer |", "| note"]

/-! ## Shared lemmas -/

theorem getHeader_setHeader_same (hs : List (String × String)) (k v : String) :
    getHeader (setHeader hs k v) k = some v := by
  induction hs with
  | nil => simp [setHeader, getHeader]
  | cons p rest ih =>
    obtain ⟨k0, v0⟩ := p
    by_cases h : k0 = k
    · simp [setHeader, getHeader, h]
    · simp [setHeader, getHeader, h, ih]

theorem getHeader_setHeader_other (hs : List (String × String)) (k v k1 : String)
    (hk : k1 ≠ k) : getHeader (setHeader hs k v) k1 = getHeader hs k1 := by
  have hk2 : ¬ k = k1 := fun h => hk h.symm
  induction hs with
  | nil => simp [setHeader, getHeader, hk2]
  | cons p rest ih =>
    obtain ⟨k0, v0⟩ := p
    by_cases h : k0 = k
    · subst h
      simp [setHeader, getHeader, hk2]
    · by_cases h3 : k0 = k1
      · subst h3
        simp [setHeader, getHeader, h]
      · simp [setHeader, getHeader, h, h3, ih]

/-- With a non-empty token stored, the request interceptor sets the header. -/
theorem requestInterceptor_token (t : String) (config : RequestConfig) (store : TokenStore)
    (ht : getToken store = some t) (hne : t ≠ "") :
    requestInterceptor store config =
      { config with headers := setHeader config.headers "Authorization" ("Bearer " ++ t) } := by
  simp [requestInterceptor, ht, hne]

/-- The empty string is falsy: the request interceptor treats it like an absent token. -/
theorem requestInterceptor_empty_string (config : RequestConfig) :
    requestInterceptor { token := some "" } config = config := by
  simp [requestInterceptor, getToken]

/-- The identity call when the network answers with a response. -/
theorem me_ok (net : Net) (w : World) (res : Response)
    (h : identityOutcome net w.store w.sent.length = Except.ok res) :
    me net w = (Except.ok res.data,
      { w with sent := w.sent ++ [requestInterceptor w.store (getConfig "/auth/me")] }) := by
  unfold identityOutcome at h
  simp [me, request, h, responseFulfilled]

/-- The identity call when the network answers with a failure. -/
theorem me_error (net : Net) (w : World) (e : AxiosError)
    (h : identityOutcome net w.store w.sent.length = Except.error e) :
    me net w = (Except.error e,
      (responseRejected e
        { w with sent := w.sent ++ [requestInterceptor w.store (getConfig "/auth/me")] }).2) := by
  unfold identityOutcome at h
  have h1 : ∀ v : World, (responseRejected e v).1 = e := by
    intro v
    unfold responseRejected
    split
    · split <;> rfl
    · rfl
  simp [me, request, h, h1]

/-- The response failure handler never touches the session state or the request log. -/
theorem responseRejected_frame (e : AxiosError) (w : World) :
    (responseRejected e w).2.user = w.user ∧ (responseRejected e w).2.loading = w.loading ∧
    (responseRejected e w).2.sent = w.sent := by
  unfold responseRejected
  split
  · split <;> simp
  · simp

/-- The response failure handler is the identity on every error that is not a 401
response. -/
theorem responseRejected_other (err : AxiosError) (w : World)
    (h : err.response = none ∨ ∃ r, err.response = some r ∧ r.status ≠ 401) :
    responseRejected err w = (err, w) := by
  rcases h with h | ⟨r, hr, hs⟩
  · simp [responseRejected, h]
  · simp [responseRejected, hr, hs]

/-- The identity call always hands exactly one request to the network: the identity
config as the request interceptor returns it for the current store. -/
theorem me_sent (net : Net) (w : World) :
    (me net w).2.sent = w.sent ++ [requestInterceptor w.store (getConfig "/auth/me")] := by
  cases h : identityOutcome net w.store w.sent.length with
  | ok res => rw [me_ok net w res h]
  | error e =>
    rw [me_error net w e h]
    exact (responseRejected_frame e _).2.2

/-- Login splits on the outcome of its identity call, issued with the new token
stored and `loading` set. -/
theorem onLogin_eq (net : Net) (t : String) (w : World) :
    onLogin net t w =
      match me net { setLoading true w with store := setToken t w.store } with
      | (Except.ok profile, w3) => (Except.ok profile, setLoading false (setUser profile w3))
      | (Except.error e, w3) => (Except.error e, setLoading false w3) := by
  rfl

/-- With a non-empty token stored, bootstrap splits on the outcome of its identity
call. -/
theorem bootstrap_token (net : Net) (w : World) (t : String)
    (ht : getToken w.store = some t) (hne : t ≠ "") :
    bootstrap net w =
      match me net w with
      | (Except.ok profile, w1) => setLoading false (setUser profile w1)
      | (Except.error _, w1) =>
        setLoading false (setUser JsVal.null { w1 with store := clearToken w1.store }) := by
  simp [bootstrap, ht, hne]

/-- The identity call is its request phase followed by its settle phase on the answer
of the network. -/
theorem me_split (net : Net) (w : World) :
    me net w = meSettle (identityOutcome net w.store w.sent.length) (meStart w) := by
  unfold identityOutcome
  cases h : net w.sent.length (requestInterceptor w.store (getConfig "/auth/me")) with
  | ok res => simp [me, request, meSettle, meStart, h]
  | error e => simp [me, request, meSettle, meStart, h]

/-- Bootstrap run to completion is its start phase, followed by its settle phase when
the identity request was issued. -/
theorem bootstrap_split (net : Net) (w : World) :
    bootstrap net w =
      if (bootstrapStart w).2 then
        bootstrapSettle (identityOutcome net w.store w.sent.length) (bootstrapStart w).1
      else (bootstrapStart w).1 := by
  unfold bootstrap bootstrapStart bootstrapSettle
  cases h : getToken w.store with
  | none => simp
  | some t =>
    by_cases ht : t = ""
    · simp [ht]
    · simp [ht, me_split]

/-- Login run to completion is its start phase followed by its settle phase. -/
theorem onLogin_split (net : Net) (t : String) (w : World) :
    onLogin net t w =
      onLoginSettle (identityOutcome net (setToken t w.store) w.sent.length)
        (onLoginStart t w) := by
  rw [onLogin_eq, me_split]
  rfl

/-- The settle phase of the identity call leaves `loading` alone. -/
theorem meSettle_loading (outcome : Except AxiosError Response) (w : World) :
    (meSettle outcome w).2.loading = w.loading := by
  cases outcome with
  | ok res => rfl
  | error e => exact (responseRejected_frame e w).2.1

/-- Bootstrap always settles with `loading = false`. -/
theorem bootstrapSettle_loading (outcome : Except AxiosError Response) (w : World) :
    (bootstrapSettle outcome w).loading = false := by
  unfold bootstrapSettle
  rcases meSettle outcome w with ⟨r, w1⟩
  cases r <;> rfl

/-- Login always settles with `loading = false`. -/
theorem onLoginSettle_loading (outcome : Except AxiosError Response) (w : World) :
    (onLoginSettle outcome w).2.loading = false := by
  unfold onLoginSettle
  rcases meSettle outcome w with ⟨r, w1⟩
  cases r <;> rfl

/-- When bootstrap finishes in its start phase, it has set `loading = false`. -/
theorem bootstrapStart_finished (w : World) (h : (bootstrapStart w).2 = false) :
    (bootstrapStart w).1.loading = false := by
  unfold bootstrapStart at h ⊢
  cases hs : getToken w.store with
  | none => simp [setLoading]
  | some t =>
    by_cases ht : t = ""
    · simp [ht, setLoading]
    · simp [hs, ht] at h

/-- The invariant of the session machine: with the bootstrap finished and no login
outstanding, `loading` is false. -/
theorem step_preserves_resolved (s s1 : Session) (ev : SessionEvent)
    (inv : s.boot = BootPhase.done → s.logins = 0 → s.world.loading = false)
    (h : s.step ev = some s1) :
    s1.boot = BootPhase.done → s1.logins = 0 → s1.world.loading = false := by
  cases ev with
  | bootstrapCalled =>
    cases hb : s.boot <;> simp [Session.step, hb] at h
    subst h
    intro hd hl
    by_cases hf : (bootstrapStart s.world).2 = true
    · simp [hf] at hd
    · exact bootstrapStart_finished s.world (by simpa using hf)
  | bootstrapSettled outcome =>
    cases hb : s.boot <;> simp [Session.step, hb] at h
    subst h
    intro _ _
    exact bootstrapSettle_loading outcome s.world
  | loginCalled t =>
    simp [Session.step] at h
    subst h
    intro _ hl
    simp at hl
  | loginSettled outcome =>
    by_cases h0 : s.logins = 0
    · simp [Session.step, h0] at h
    · simp [Session.step, h0] at h
      subst h
      intro _ _
      exact onLoginSettle_loading outcome s.world
  | logoutCalled =>
    simp [Session.step] at h
    subst h
    intro hd hl
    exact inv hd hl

theorem run_preserves_resolved (evs : List SessionEvent) (s s1 : Session)
    (inv : s.boot = BootPhase.done → s.logins = 0 → s.world.loading = false)
    (h : s.run evs = some s1) :
    s1.boot = BootPhase.done → s1.logins = 0 → s1.world.loading = false := by
  induction evs generalizing s with
  | nil =>
    simp [Session.run] at h
    subst h
    exact inv
  | cons ev rest ih =>
    cases hs : s.step ev with
    | none => simp [Session.run, hs] at h
    | some s2 =>
      simp [Session.run, hs] at h
      exact ih s2 (step_preserves_resolved s s2 ev inv hs) h

/-- A 401 error makes the response failure handler clear the store and set the
location, whatever they were. -/
theorem responseRejected_teardown (e : AxiosError) (w : World) (h : isUnauthorized e = true) :
    (responseRejected e w).2 = { w with store := { token := none }, href := "/login" } := by
  unfold isUnauthorized at h
  cases hr : e.response with
  | none => simp [hr] at h
  | some r =>
    simp [hr] at h
    simp [responseRejected, hr, h, clearToken]

/-- Only an object has a property that is `true`; in particular such a value is
truthy. -/
theorem truthy_of_optProp_true (j : JsVal) (k : String)
    (h : optProp j k = JsVal.bool true) : truthy j = true := by
  cases j <;> first | rfl | simp [optProp] at h

/-- A value other than the string `s` is not strictly equal to it. -/
theorem strictEqStr_false (v : JsVal) (s : String) (h : v ≠ JsVal.str s) :
    strictEqStr v s = false := by
  cases v with
  | str t =>
    have ht : t ≠ s := fun e => h (by rw [e])
    simp [strictEqStr, ht]
  | _ => rfl

/-- The `finally` block of the `ApplyJob` load never navigates. -/
theorem applyJob_loadFinally_navigations (cancelled : Bool) (v : ApplyJobView) :
    (ApplyJob.loadFinally cancelled v).navigations = v.navigations := by
  cases cancelled <;> rfl

/-- The `ApplyJob` load on an applicant and a job already applied to, with the view
still mounted. -/
theorem applyJob_load_applied (user j : JsVal) (jobId : String) (v : ApplyJobView)
    (hrole : optProp user "role" = JsVal.str "applicant")
    (happlied : optProp j "has_applied" = JsVal.bool true) :
    ApplyJob.load user jobId false (Except.ok j) v =
      { job := j, loading := false, err := "", success := "",
        navigations := v.navigations ++
          [{ path := "/jobs/" ++ jobId ++ "/application", replace := true }] } := by
  have hj := truthy_of_optProp_true j "has_applied" happlied
  have ht : truthy (JsVal.bool true) = true := rfl
  simp [ApplyJob.load, ApplyJob.loadResume, ApplyJob.loadStart, ApplyJob.loadFinally, hj,
    hrole, happlied, strictEqStr, ht]

/-- In `ApplicationDetails`, an unmount while the my-application fetch is outstanding
suppresses every state update of the load. -/
theorem details_loadAfterApplication_cancelled (outcome : Except AxiosError JsVal)
    (v : DetailsView) : ApplicationDetails.loadAfterApplication true outcome v = v := by
  cases outcome <;> rfl

/-- In `ApplicationDetails`, an unmount while the job fetch is outstanding suppresses
every state update of the load when that fetch is rejected. -/
theorem details_loadAfterJob_cancelled_error (e : AxiosError) (v : DetailsView) :
    ApplicationDetails.loadAfterJob true (Except.error e) v = (v, false) := by
  rfl

/-- A call through `api` that the network answers with a response. -/
theorem request_ok (net : Net) (config : RequestConfig) (w : World) (res : Response)
    (h : answer net config w = Except.ok res) :
    request net config w =
      (Except.ok res, { w with sent := w.sent ++ [requestInterceptor w.store config] }) := by
  unfold answer at h
  simp [request, h, responseFulfilled]

/-- A call through `api` that the network answers with a failure. -/
theorem request_error (net : Net) (config : RequestConfig) (w : World) (e : AxiosError)
    (h : answer net config w = Except.error e) :
    request net config w =
      (Except.error e,
        (responseRejected e
          { w with sent := w.sent ++ [requestInterceptor w.store config] }).2) := by
  unfold answer at h
  have h1 : ∀ v : World, (responseRejected e v).1 = e := by
    intro v
    unfold responseRejected
    split
    · split <;> rfl
    · rfl
  simp [request, h, h1]

/-- Every call through `api` hands exactly one request to the network. -/
theorem request_sent (net : Net) (config : RequestConfig) (w : World) :
    (request net config w).2.sent = w.sent ++ [requestInterceptor w.store config] := by
  cases h : answer net config w with
  | ok res => rw [request_ok net config w res h]
  | error e =>
    rw [request_error net config w e h]
    exact (responseRejected_frame e _).2.2

set_option maxRecDepth 8192 in
/-- The string of a number follows its Number value: `2 ^ 60` is spelled with the
shortest digits that identify the double, padded with zeros, and a numeral a double
cannot hold is spelled as the nearest double. -/
theorem jsString_number_examples :
    jsString (JsVal.num 7) = "7" ∧
    jsString (JsVal.num 1152921504606846976) = "1152921504606847000" ∧
    jsString (JsVal.num 9007199254740993) = "9007199254740992" ∧
    jsString (JsVal.num 1180591620717411303424) = "1.1805916207174113e+21" := by
  refine ⟨?_, ?_, ?_, ?_⟩ <;> decide

/-- The entries of an object come with the array-index keys first, in ascending
order. -/
theorem objectEntries_index_keys_first :
    objectEntries
        (JsVal.obj [("b", JsVal.str "x"), ("10", JsVal.str "z"), ("1", JsVal.str "y")])
      = [("1", JsVal.str "y"), ("10", JsVal.str "z"), ("b", JsVal.str "x")] := by
  rfl

/-- The search past elements that are neither `null`, `undefined` nor a match is decided
at the next element. -/
theorem findJob_split (jobId : String) (pre : List JsVal) (j : JsVal) (post : List JsVal)
    (hpre : ∀ x ∈ pre, isNullish x = false ∧ jsString (optProp x "id") ≠ jobId) :
    findJob jobId (pre ++ j :: post) =
      if isNullish j then Except.error Thrown.typeError
      else if jsString (optProp j "id") = jobId then Except.ok j
      else findJob jobId post := by
  induction pre with
  | nil => rfl
  | cons x rest ih =>
    have hx := hpre x (List.mem_cons_self x rest)
    have hrest : ∀ y ∈ rest, isNullish y = false ∧ jsString (optProp y "id") ≠ jobId :=
      fun y hy => hpre y (List.mem_cons_of_mem x hy)
    simp [findJob, hx.1, hx.2, ih hrest]

/-- The search of a list without `null`, `undefined` or matching element ends with
`undefined`. -/
theorem findJob_no_match (jobId : String) (items : List JsVal)
    (h : ∀ x ∈ items, isNullish x = false ∧ jsString (optProp x "id") ≠ jobId) :
    findJob jobId items = Except.ok JsVal.undefined := by
  induction items with
  | nil => rfl
  | cons x rest ih =>
    have hx := h x (List.mem_cons_self x rest)
    have hrest : ∀ y ∈ rest, isNullish y = false ∧ jsString (optProp y "id") ≠ jobId :=
      fun y hy => h y (List.mem_cons_of_mem x hy)
    simp [findJob, hx.1, hx.2, ih hrest]

/-- On a list without `null` or `undefined` elements the search never throws: it is
the first element whose id converts to `jobId`, or `undefined`. -/
theorem findJob_eq_find (jobId : String) (items : List JsVal)
    (h : ∀ j ∈ items, isNullish j = false) :
    findJob jobId items =
      Except.ok ((items.find? fun j => jsString (optProp j "id") == jobId).getD
        JsVal.undefined) := by
  induction items with
  | nil => rfl
  | cons j rest ih =>
    have hj := h j (List.mem_cons_self j rest)
    have hrest : ∀ x ∈ rest, isNullish x = false :=
      fun x hx => h x (List.mem_cons_of_mem j hx)
    by_cases hid : jsString (optProp j "id") = jobId
    · simp [findJob, hj, hid]
    · simp [findJob, hj, hid, ih hrest]

/-- The longest prefix satisfying `p`, followed by what is left after it. -/
theorem takeWhile_append_drop (p : String → Bool) (l : List String) :
    l.takeWhile p ++ l.drop (l.takeWhile p).length = l := by
  induction l with
  | nil => rfl
  | cons x rest ih =>
    by_cases hx : p x = true
    · simp [List.takeWhile_cons, hx, ih]
    · simp [List.takeWhile_cons, hx]

/-- The line right after the longest prefix satisfying `p` does not satisfy `p`. -/
theorem takeWhile_next (p : String → Bool) (l : List String) (next : String)
    (h : l[(l.takeWhile p).length]? = some next) : p next = false := by
  induction l with
  | nil => simp at h
  | cons x rest ih =>
    by_cases hx : p x = true
    · simp [List.takeWhile_cons, hx] at h
      exact ih h
    · simp [List.takeWhile_cons, hx] at h
      subst h
      simpa using hx

/-- The main loop at an index past the last line. -/
theorem scanBlocks_done (lines : List String) (i : Nat) (h : lines.length ≤ i) :
    scanBlocks lines i = [] := by
  rw [scanBlocks]
  simp [Nat.not_lt.mpr h]

/-- The main loop at a line that opens a table of at least two lines. -/
theorem scanBlocks_table_step (lines : List String) (i : Nat) (line : String)
    (hline : lines[i]? = some line) (hstart : isTableStart line = true)
    (hrun : 2 ≤ ((lines.drop i).takeWhile hasPipe).length) :
    scanBlocks lines i =
      Block.tableLines i ((lines.drop i).takeWhile hasPipe) ::
        scanBlocks lines (i + ((lines.drop i).takeWhile hasPipe).length) := by
  obtain ⟨h, hl⟩ := List.getElem?_eq_some_iff.mp hline
  rw [scanBlocks]
  simp [h, hl, hstart, hrun]

/-- The main loop at any other line. -/
theorem scanBlocks_line_step (lines : List String) (i : Nat) (line : String)
    (hline : lines[i]? = some line)
    (hno : isTableStart line = false ∨ ((lines.drop i).takeWhile hasPipe).length < 2) :
    scanBlocks lines i = Block.regularLine i line :: scanBlocks lines (i + 1) := by
  obtain ⟨h, hl⟩ := List.getElem?_eq_some_iff.mp hline
  rw [scanBlocks]
  rcases hno with hno | hno
  · simp [h, hl, hno]
  · have hn : ¬ 2 ≤ ((lines.drop i).takeWhile hasPipe).length := by omega
    by_cases hs : isTableStart line = true
    · simp [h, hl, hs, hn]
    · simp [h, hl, hs]

/-- Every step of the main loop consumes a block that starts at the current index and
covers at least one line, and continues right after it. -/
theorem scanBlocks_step (lines : List String) (i : Nat) (h : i < lines.length) :
    ∃ b, scanBlocks lines i = b :: scanBlocks lines (i + b.lines.length) ∧
      b.index = i ∧ 1 ≤ b.lines.length ∧
      b.lines ++ lines.drop (i + b.lines.length) = lines.drop i := by
  have hline : lines[i]? = some lines[i] := List.getElem?_eq_getElem h
  by_cases hs : isTableStart lines[i] = true
  · by_cases hrun : 2 ≤ ((lines.drop i).takeWhile hasPipe).length
    · refine ⟨Block.tableLines i ((lines.drop i).takeWhile hasPipe),
        scanBlocks_table_step lines i _ hline hs hrun, rfl, ?_, ?_⟩
      · simp only [Block.lines]
        omega
      · simp only [Block.lines]
        have := takeWhile_append_drop hasPipe (lines.drop i)
        rw [List.drop_drop] at this
        exact this
    · refine ⟨Block.regularLine i lines[i],
        scanBlocks_line_step lines i _ hline (Or.inr (by omega)), rfl, ?_, ?_⟩
      · simp [Block.lines]
      · simp only [Block.lines, List.length_singleton, List.singleton_append]
        exact (List.drop_eq_getElem_cons h).symm
  · refine ⟨Block.regularLine i lines[i],
      scanBlocks_line_step lines i _ hline (Or.inl (by simpa using hs)), rfl, ?_, ?_⟩
    · simp [Block.lines]
    · simp only [Block.lines, List.length_singleton, List.singleton_append]
      exact (List.drop_eq_getElem_cons h).symm

/-- The blocks from index `i` on cover the lines from `i` on, each once and in order. -/
theorem scanBlocks_cover (lines : List String) (i : Nat) :
    ((scanBlocks lines i).map Block.lines).flatten = lines.drop i := by
  by_cases h : i < lines.length
  · obtain ⟨b, hb, _, hlen, hcov⟩ := scanBlocks_step lines i h
    rw [hb, List.map_cons, List.flatten_cons, scanBlocks_cover lines (i + b.lines.length)]
    exact hcov
  · rw [scanBlocks_done lines i (by omega), List.drop_eq_nil_of_le (by omega)]
    rfl
termination_by lines.length - i
decreasing_by omega

/-- There are at most as many blocks from index `i` on as lines. -/
theorem scanBlocks_length (lines : List String) (i : Nat) :
    (scanBlocks lines i).length ≤ lines.length - i := by
  by_cases h : i < lines.length
  · obtain ⟨b, hb, _, hlen, _⟩ := scanBlocks_step lines i h
    have ih := scanBlocks_length lines (i + b.lines.length)
    rw [hb, List.length_cons]
    omega
  · rw [scanBlocks_done lines i (by omega)]
    simp
termination_by lines.length - i
decreasing_by omega

/-- Each block from index `i` on starts where the blocks before it end, and covers at
least one line. -/
theorem scanBlocks_chain (lines : List String) (i : Nat) (pre : List Block) (b : Block)
    (post : List Block) (hsplit : scanBlocks lines i = pre ++ b :: post) :
    b.index = i + ((pre.map Block.lines).flatten).length ∧ 1 ≤ b.lines.length := by
  by_cases h : i < lines.length
  · obtain ⟨b0, hb, hidx, hlen, _⟩ := scanBlocks_step lines i h
    rw [hb] at hsplit
    cases pre with
    | nil =>
      simp only [List.nil_append, List.cons.injEq] at hsplit
      obtain ⟨hb0, _⟩ := hsplit
      subst hb0
      simp [hidx, hlen]
    | cons p pre1 =>
      simp only [List.cons_append, List.cons.injEq] at hsplit
      obtain ⟨hp, htail⟩ := hsplit
      subst hp
      have ih := scanBlocks_chain lines (i + b0.lines.length) pre1 b post htail
      refine ⟨?_, ih.2⟩
      rw [ih.1]
      simp only [List.map_cons, List.flatten_cons, List.length_append]
      omega
  · rw [scanBlocks_done lines i (by omega)] at hsplit
    simp at hsplit
termination_by lines.length - i
decreasing_by omega

/-! ## HttpGateway -/

/-- C1: for every response error whose status is 401, whatever request it belongs to, the
response failure handler clears the token store, sets the location to `/login`, and
rejects with the very error it received; nothing else of the world changes. -/
theorem responseRejected_unauthorized (err : AxiosError) (r : Response) (w : World)
    (hr : err.response = some r) (hs : r.status = 401) :
    (responseRejected err w).1 = err ∧
    getToken (responseRejected err w).2.store = none ∧
    (responseRejected err w).2.href = "/login" ∧
    (responseRejected err w).2.user = w.user ∧
    (responseRejected err w).2.loading = w.loading ∧
    (responseRejected err w).2.sent = w.sent := by
  simp [responseRejected, hr, hs, clearToken, getToken]

theorem responseRejected_unauthorized_witness :
    (failure (some 401) (getConfig "/job/all")).response
        = some { status := 401, data := JsVal.null } ∧
    (responseRejected (failure (some 401) (getConfig "/job/all")) signedInWorld).1
        = failure (some 401) (getConfig "/job/all") ∧
    getToken (responseRejected (failure (some 401) (getConfig "/job/all")) signedInWorld).2.store
        = none ∧
    (responseRejected (failure (some 401) (getConfig "/job/all")) signedInWorld).2.href
        = "/login" :=
  have h := responseRejected_unauthorized (failure (some 401) (getConfig "/job/all"))
    { status := 401, data := JsVal.null } signedInWorld rfl rfl
  ⟨rfl, h.1, h.2.1, h.2.2.1⟩

/-- C2: for every error without a response (network failure) or with a response whose
status is not 401, the response failure handler leaves the whole world, token store and
location included, unchanged and rejects with the same error. -/
theorem responseRejected_passthrough (err : AxiosError) (w : World)
    (h : err.response = none ∨ ∃ r, err.response = some r ∧ r.status ≠ 401) :
    responseRejected err w = (err, w) ∧
    (responseRejected err w).2.store = w.store ∧
    (responseRejected err w).2.href = w.href := by
  rw [responseRejected_other err w h]
  exact ⟨rfl, rfl, rfl⟩

theorem responseRejected_passthrough_witness :
    responseRejected (failure none (getConfig "/job/all")) signedInWorld
        = (failure none (getConfig "/job/all"), signedInWorld) ∧
    responseRejected (failure (some 500) (getConfig "/job/all")) signedInWorld
        = (failure (some 500) (getConfig "/job/all"), signedInWorld) :=
  ⟨(responseRejected_passthrough _ signedInWorld (Or.inl rfl)).1,
   (responseRejected_passthrough _ signedInWorld
     (Or.inr ⟨{ status := 500, data := JsVal.null }, rfl, by decide⟩)).1⟩

/-- C3: for every outbound request config the request handler reads the token store. If a
token (a non-empty string) is stored, the returned config is the given one with the
`Authorization` header set to `"Bearer "` followed by the token verbatim, every other
header and field being as before; if no token is stored, the config is returned
unchanged. -/
theorem requestInterceptor_bearer (store : TokenStore) (config : RequestConfig) :
    (∀ t : String, getToken store = some t → t ≠ "" →
      requestInterceptor store config =
        { config with
          headers := setHeader config.headers "Authorization" ("Bearer " ++ t) } ∧
      getHeader (requestInterceptor store config).headers "Authorization"
        = some ("Bearer " ++ t) ∧
      (∀ k : String, k ≠ "Authorization" →
        getHeader (requestInterceptor store config).headers k = getHeader config.headers k)) ∧
    (getToken store = none → requestInterceptor store config = config) := by
  constructor
  · intro t ht hne
    rw [requestInterceptor_token t config store ht hne]
    exact ⟨rfl, getHeader_setHeader_same _ _ _,
      fun k hk => getHeader_setHeader_other _ _ _ k hk⟩
  · intro h
    simp [requestInterceptor, h]

theorem requestInterceptor_bearer_witness :
    getHeader (requestInterceptor { token := some "T1" } (getConfig "/job/all")).headers
        "Authorization" = some "Bearer T1" ∧
    requestInterceptor { token := none } (getConfig "/job/all") = getConfig "/job/all" :=
  ⟨((requestInterceptor_bearer { token := some "T1" } (getConfig "/job/all")).1
      "T1" rfl (by decide)).2.1,
   (requestInterceptor_bearer { token := none } (getConfig "/job/all")).2 rfl⟩

/-! ## SessionState -/

/-- C4: if the token store is empty when `bootstrap` runs, it ends with `user` absent and
`loading = false`, and it hands no request to the network: the request log, the store
and the location are as before. -/
theorem bootstrap_empty_store (net : Net) (w : World) (h : getToken w.store = none) :
    (bootstrap net w).user = JsVal.null ∧
    (bootstrap net w).loading = false ∧
    (bootstrap net w).sent = w.sent ∧
    (bootstrap net w).store = w.store ∧
    (bootstrap net w).href = w.href := by
  simp [bootstrap, h, setLoading, setUser]

theorem bootstrap_empty_store_witness :
    getToken (freshWorld none).store = none ∧
    (bootstrap (netOk profileA) (freshWorld none)).user = JsVal.null ∧
    (bootstrap (netOk profileA) (freshWorld none)).loading = false ∧
    (bootstrap (netOk profileA) (freshWorld none)).sent = [] :=
  have h := bootstrap_empty_store (netOk profileA) (freshWorld none) rfl
  ⟨rfl, h.1, h.2.1, h.2.2.1⟩

/-- C5: if the token store holds a token when `bootstrap` runs and the identity endpoint
answers the request with a response `res`, then `bootstrap` ends with `loading = false`
and `user` equal to the fetched profile `res.data`, and the token is still stored. -/
theorem bootstrap_identity_ok (net : Net) (w : World) (t : String) (res : Response)
    (ht : getToken w.store = some t) (hne : t ≠ "")
    (hok : identityOutcome net w.store w.sent.length = Except.ok res) :
    (bootstrap net w).user = res.data ∧
    (bootstrap net w).loading = false ∧
    getToken (bootstrap net w).store = some t := by
  rw [bootstrap_token net w t ht hne, me_ok net w res hok]
  simpa [setLoading, setUser] using ht

theorem bootstrap_identity_ok_witness :
    getToken (freshWorld (some "T1")).store = some "T1" ∧
    (bootstrap (netOk profileA) (freshWorld (some "T1"))).user
        = JsVal.obj [("id", JsVal.num 1), ("email", JsVal.str "a@x.com"),
            ("role", JsVal.str "applicant")] ∧
    (bootstrap (netOk profileA) (freshWorld (some "T1"))).loading = false ∧
    getToken (bootstrap (netOk profileA) (freshWorld (some "T1"))).store = some "T1" :=
  ⟨rfl, bootstrap_identity_ok (netOk profileA) (freshWorld (some "T1")) "T1"
    { status := 200, data := profileA } rfl (by decide) rfl⟩

/-- C6: if the token store holds a token when `bootstrap` runs and the identity call
fails, with whatever error (a 401 response, another response, or no response), then
`bootstrap` ends with the token store empty, `user` absent and `loading = false`. -/
theorem bootstrap_identity_failure (net : Net) (w : World) (t : String) (e : AxiosError)
    (ht : getToken w.store = some t) (hne : t ≠ "")
    (hfail : identityOutcome net w.store w.sent.length = Except.error e) :
    getToken (bootstrap net w).store = none ∧
    (bootstrap net w).user = JsVal.null ∧
    (bootstrap net w).loading = false := by
  rw [bootstrap_token net w t ht hne, me_error net w e hfail]
  simp [setLoading, setUser, clearToken, getToken]

theorem bootstrap_identity_failure_witness :
    (getToken (bootstrap (netFail (some 401)) (freshWorld (some "T1"))).store = none ∧
      (bootstrap (netFail (some 401)) (freshWorld (some "T1"))).user = JsVal.null ∧
      (bootstrap (netFail (some 401)) (freshWorld (some "T1"))).loading = false) ∧
    (getToken (bootstrap (netFail none) (freshWorld (some "T1"))).store = none ∧
      (bootstrap (netFail none) (freshWorld (some "T1"))).user = JsVal.null ∧
      (bootstrap (netFail none) (freshWorld (some "T1"))).loading = false) :=
  ⟨bootstrap_identity_failure (netFail (some 401)) (freshWorld (some "T1")) "T1" _
      rfl (by decide) rfl,
   bootstrap_identity_failure (netFail none) (freshWorld (some "T1")) "T1" _
      rfl (by decide) rfl⟩

/-- C7: for every token `t` and every prior world, when the identity endpoint answers the
request of `login(t)` with a response `res`, login returns the profile `res.data` to the
caller and ends with `t` stored in the token store, `user` equal to the profile and
`loading = false`. -/
theorem onLogin_identity_ok (net : Net) (t : String) (w : World) (res : Response)
    (hok : identityOutcome net (setToken t w.store) w.sent.length = Except.ok res) :
    (onLogin net t w).1 = Except.ok res.data ∧
    getToken (onLogin net t w).2.store = some t ∧
    (onLogin net t w).2.user = res.data ∧
    (onLogin net t w).2.loading = false := by
  rw [onLogin_eq, me_ok net _ res hok]
  simp [setLoading, setUser, setToken, getToken]

theorem onLogin_identity_ok_witness :
    (onLogin (netOk profileA) "T1" (freshWorld none)).1 = Except.ok profileA ∧
    getToken (onLogin (netOk profileA) "T1" (freshWorld none)).2.store = some "T1" ∧
    (onLogin (netOk profileA) "T1" (freshWorld none)).2.user = profileA ∧
    (onLogin (netOk profileA) "T1" (freshWorld none)).2.loading = false :=
  onLogin_identity_ok (netOk profileA) "T1" (freshWorld none)
    { status := 200, data := profileA } rfl

/-- C8, as stated, fails on the code in two ways. With a 401 answer the response handler
has cleared the store, so the token of `login("T2")` is not stored afterwards; and from a
state with a user present a failed login leaves that user in place, so `user` is not
absent afterwards. -/
theorem onLogin_identity_failure_counterexample :
    (identityOutcome (netFail (some 401)) (setToken "T2" (freshWorld none).store)
          (freshWorld none).sent.length
        = Except.error (failure (some 401)
            (requestInterceptor { token := some "T2" } (getConfig "/auth/me"))) ∧
      getToken (onLogin (netFail (some 401)) "T2" (freshWorld none)).2.store = none ∧
      ¬ getToken (onLogin (netFail (some 401)) "T2" (freshWorld none)).2.store = some "T2") ∧
    (identityOutcome (netFail none) (setToken "T2" signedInWorld.store)
          signedInWorld.sent.length
        = Except.error (failure none
            (requestInterceptor { token := some "T2" } (getConfig "/auth/me"))) ∧
      (onLogin (netFail none) "T2" signedInWorld).2.user = profileA ∧
      ¬ (onLogin (netFail none) "T2" signedInWorld).2.user = JsVal.null) := by
  refine ⟨⟨rfl, rfl, ?_⟩, rfl, rfl, ?_⟩
  · intro h
    cases h
  · intro h
    cases h

/-- C8, amended: for every token `t` and every prior world, when the identity fetch inside
`login(t)` fails with an error other than a 401 response (no response, or a response with
another status), login rethrows that error and ends with `t` still stored, `loading =
false`, and `user` as it was before the call, hence absent when it was absent. -/
theorem onLogin_identity_failure (net : Net) (t : String) (w : World) (e : AxiosError)
    (hfail : identityOutcome net (setToken t w.store) w.sent.length = Except.error e)
    (hne : e.response = none ∨ ∃ r, e.response = some r ∧ r.status ≠ 401) :
    (onLogin net t w).1 = Except.error e ∧
    getToken (onLogin net t w).2.store = some t ∧
    (onLogin net t w).2.loading = false ∧
    (onLogin net t w).2.user = w.user ∧
    (w.user = JsVal.null → (onLogin net t w).2.user = JsVal.null) := by
  rw [onLogin_eq, me_error net _ e hfail, responseRejected_other e _ hne]
  simp [setLoading, setToken, getToken]

theorem onLogin_identity_failure_witness :
    (onLogin (netFail (some 500)) "T2" (freshWorld none)).1
        = Except.error (failure (some 500)
            (requestInterceptor { token := some "T2" } (getConfig "/auth/me"))) ∧
    getToken (onLogin (netFail (some 500)) "T2" (freshWorld none)).2.store = some "T2" ∧
    (onLogin (netFail (some 500)) "T2" (freshWorld none)).2.loading = false ∧
    (onLogin (netFail (some 500)) "T2" (freshWorld none)).2.user = JsVal.null :=
  have h := onLogin_identity_failure (netFail (some 500)) "T2" (freshWorld none)
    (failure (some 500) (requestInterceptor { token := some "T2" } (getConfig "/auth/me")))
    rfl (Or.inr ⟨{ status := 500, data := JsVal.null }, rfl, by decide⟩)
  ⟨h.1, h.2.1, h.2.2.1, h.2.2.2.2 rfl⟩

/-- C9, as stated, fails on the code: `login("T2")` called from a session signed in as
`profileA`, with the identity endpoint answering 401, leaves that user in place, so
`user` is not absent afterwards. -/
theorem onLogin_identity_unauthorized_counterexample :
    identityOutcome (netFail (some 401)) (setToken "T2" signedInWorld.store)
        signedInWorld.sent.length
      = Except.error (failure (some 401)
          (requestInterceptor { token := some "T2" } (getConfig "/auth/me"))) ∧
    (onLogin (netFail (some 401)) "T2" signedInWorld).2.user = profileA ∧
    ¬ (onLogin (netFail (some 401)) "T2" signedInWorld).2.user = JsVal.null := by
  refine ⟨rfl, rfl, ?_⟩
  intro h
  cases h

/-- C9, amended: when `login(t)` is called (the scenario has `t = "T2"`), from any prior
state, and the identity endpoint answers with a 401 error `e`, the response handler
clears the token store and sets the location to `/login`, login rethrows `e` to its
caller, `loading` is false afterwards, and `user` is left as it was before the call:
absent when it was absent. -/
theorem onLogin_identity_unauthorized (net : Net) (t : String) (w : World) (e : AxiosError)
    (r : Response)
    (hfail : identityOutcome net (setToken t w.store) w.sent.length = Except.error e)
    (hr : e.response = some r) (hs : r.status = 401) :
    (onLogin net t w).1 = Except.error e ∧
    getToken (onLogin net t w).2.store = none ∧
    (onLogin net t w).2.href = "/login" ∧
    (onLogin net t w).2.loading = false ∧
    (onLogin net t w).2.user = w.user ∧
    (w.user = JsVal.null → (onLogin net t w).2.user = JsVal.null) := by
  rw [onLogin_eq, me_error net _ e hfail]
  simp [responseRejected, hr, hs, setLoading, clearToken, getToken]

theorem onLogin_identity_unauthorized_witness :
    (onLogin (netFail (some 401)) "T2" (freshWorld none)).1
        = Except.error (failure (some 401)
            (requestInterceptor { token := some "T2" } (getConfig "/auth/me"))) ∧
    getToken (onLogin (netFail (some 401)) "T2" (freshWorld none)).2.store = none ∧
    (onLogin (netFail (some 401)) "T2" (freshWorld none)).2.href = "/login" ∧
    (onLogin (netFail (some 401)) "T2" (freshWorld none)).2.loading = false ∧
    (onLogin (netFail (some 401)) "T2" (freshWorld none)).2.user = JsVal.null :=
  have h := onLogin_identity_unauthorized (netFail (some 401)) "T2" (freshWorld none)
    (failure (some 401) (requestInterceptor { token := some "T2" } (getConfig "/auth/me")))
    { status := 401, data := JsVal.null } rfl rfl rfl
  ⟨h.1, h.2.1, h.2.2.1, h.2.2.2.1, h.2.2.2.2.2 rfl⟩

/-- C10: within `login(t)` the identity request is issued after `t` has been written to
the token store: for every token `t` (a non-empty string), every prior store content and
every network, `login(t)` hands exactly one request to the network, the GET of
`/auth/me` as the request handler returns it for the store holding `t`, and its
`Authorization` header is `"Bearer "` followed by `t`. -/
theorem onLogin_request_bearer (net : Net) (t : String) (w : World) (hne : t ≠ "") :
    (onLogin net t w).2.sent
        = w.sent ++ [requestInterceptor (setToken t w.store) (getConfig "/auth/me")] ∧
    requestInterceptor (setToken t w.store) (getConfig "/auth/me")
        = { method := "get", url := "/auth/me",
            headers := [("Authorization", "Bearer " ++ t)], data := JsVal.undefined } ∧
    getHeader (requestInterceptor (setToken t w.store) (getConfig "/auth/me")).headers
        "Authorization" = some ("Bearer " ++ t) := by
  have hreq := requestInterceptor_token t (getConfig "/auth/me") (setToken t w.store) rfl hne
  refine ⟨?_, ?_, ?_⟩
  · have hs := me_sent net { setLoading true w with store := setToken t w.store }
    rw [onLogin_eq]
    revert hs
    rcases me net { setLoading true w with store := setToken t w.store } with ⟨res, w3⟩
    cases res <;> simp [setLoading, setUser]
  · rw [hreq]
    simp [getConfig, setHeader]
  · rw [hreq]
    exact getHeader_setHeader_same _ _ _

theorem onLogin_request_bearer_witness :
    (onLogin (netOk profileA) "T2" signedInWorld).2.sent
        = [{ method := "get", url := "/auth/me",
             headers := [("Authorization", "Bearer T2")], data := JsVal.undefined }] :=
  have h := onLogin_request_bearer (netOk profileA) "T2" signedInWorld (by decide)
  h.1.trans (congrArg (fun c => [c]) h.2.1)

/-- C11: for every token, every prior world and every outcome of the identity fetch (given
by a network, or as the outcome the outstanding request settles with), a completed
`login(token)` followed by `logout()` ends with the token store empty and `user`
absent. -/
theorem onLogin_then_onLogout (t : String) (w : World) :
    (∀ net : Net,
      getToken (onLogout (onLogin net t w).2).store = none ∧
      (onLogout (onLogin net t w).2).user = JsVal.null) ∧
    (∀ outcome : Except AxiosError Response,
      getToken (onLogout (onLoginSettle outcome (onLoginStart t w)).2).store = none ∧
      (onLogout (onLoginSettle outcome (onLoginStart t w)).2).user = JsVal.null) := by
  constructor
  · intro net
    simp [onLogout, setUser, clearToken, getToken]
  · intro outcome
    simp [onLogout, setUser, clearToken, getToken]

/-- C12: `logout()` is idempotent: from every world, calling it twice yields the same world
(session state and token store included) as calling it once, and calling it with the
store already empty and `user` already absent changes nothing. -/
theorem onLogout_idempotent (w : World) :
    onLogout (onLogout w) = onLogout w ∧
    (getToken w.store = none → w.user = JsVal.null → onLogout w = w) := by
  constructor
  · rfl
  · intro hs hu
    obtain ⟨⟨tok⟩, href, user, loading, sent⟩ := w
    simp only [getToken] at hs
    simp only at hu
    subst hs
    subst hu
    rfl

theorem onLogout_idempotent_witness :
    onLogout (onLogout signedInWorld) = onLogout signedInWorld ∧
    onLogout (freshWorld none) = freshWorld none :=
  ⟨(onLogout_idempotent signedInWorld).1,
   (onLogout_idempotent (freshWorld none)).2 rfl rfl⟩

/-- C13, as stated, fails on the code: `onLogout` never calls `setLoading`, so from the
initial state, in which `loading` is true, the state after `logout()` still has
`loading = true`. -/
theorem onLogout_loading_counterexample :
    (World.initial { token := some "T1" } "/jobs").loading = true ∧
    (onLogout (World.initial { token := some "T1" } "/jobs")).loading = true ∧
    ¬ (onLogout (World.initial { token := some "T1" } "/jobs")).loading = false := by
  refine ⟨rfl, rfl, ?_⟩
  intro h
  cases h

/-- C13, amended: from every session state `logout()` succeeds synchronously (it is a total
function that sends nothing), clears the token store, sets `user` absent and leaves
`loading` as it was; so from every state with `loading = false` it leaves exactly
`{ user: absent, loading: false }`. -/
theorem onLogout_effect (w : World) :
    getToken (onLogout w).store = none ∧
    (onLogout w).user = JsVal.null ∧
    (onLogout w).loading = w.loading ∧
    (onLogout w).sent = w.sent ∧
    (onLogout w).href = w.href ∧
    (w.loading = false → (onLogout w).user = JsVal.null ∧ (onLogout w).loading = false) := by
  refine ⟨rfl, rfl, rfl, rfl, rfl, ?_⟩
  intro h
  exact ⟨rfl, h⟩

theorem onLogout_effect_witness :
    (onLogout signedInWorld).user = JsVal.null ∧ (onLogout signedInWorld).loading = false :=
  (onLogout_effect signedInWorld).2.2.2.2.2 rfl

/-- C14: the session starts in `{ user: absent, loading: true }` with its bootstrap still
to resolve, and in every state reached by any sequence of bootstrap, login and logout
steps (calls and settlements in any order) `loading` is true only while the bootstrap
or a login is unresolved: with the bootstrap finished and no login outstanding,
`loading` is false. -/
theorem loading_only_while_resolving (store : TokenStore) (href : String)
    (evs : List SessionEvent) (s : Session)
    (h : (Session.start store href).run evs = some s) :
    ((Session.start store href).world.user = JsVal.null ∧
      (Session.start store href).world.loading = true) ∧
    (s.world.loading = true → s.boot ≠ BootPhase.done ∨ 0 < s.logins) ∧
    (s.boot = BootPhase.done → s.logins = 0 → s.world.loading = false) := by
  have hinv := run_preserves_resolved evs (Session.start store href) s
    (by intro hb; cases hb) h
  refine ⟨⟨rfl, rfl⟩, ?_, hinv⟩
  intro hl
  by_cases hb : s.boot = BootPhase.done
  · right
    by_contra hn
    have h0 : s.logins = 0 := by omega
    rw [hinv hb h0] at hl
    cases hl
  · exact Or.inl hb

theorem loading_only_while_resolving_witness :
    ∃ s : Session,
      (Session.start { token := some "T1" } "/jobs").run sampleRun = some s ∧
      s.boot = BootPhase.done ∧ s.logins = 0 ∧ s.world.loading = false :=
  ⟨_, rfl, rfl, rfl,
    (loading_only_while_resolving { token := some "T1" } "/jobs" sampleRun _ rfl).2.2 rfl rfl⟩

/-- C15: the 401 teardown is idempotent: for every starting world (any token store content
and location), handling a non-empty sequence of 401 errors one after another leaves the
same world as handling only the first of them: the token store empty and the location
`/login`. -/
theorem teardown_idempotent (e : AxiosError) (errs : List AxiosError) (w : World)
    (h : ∀ x ∈ e :: errs, isUnauthorized x = true) :
    handleRejections (e :: errs) w = (responseRejected e w).2 ∧
    getToken (handleRejections (e :: errs) w).store = none ∧
    (handleRejections (e :: errs) w).href = "/login" := by
  have key : ∀ (l : List AxiosError) (v : World), (∀ x ∈ l, isUnauthorized x = true) →
      handleRejections l { v with store := { token := none }, href := "/login" }
        = { v with store := { token := none }, href := "/login" } := by
    intro l
    induction l with
    | nil => intro v _; rfl
    | cons x rest ih =>
      intro v hx
      have hx1 := hx x (List.mem_cons_self x rest)
      have hrest : ∀ y ∈ rest, isUnauthorized y = true :=
        fun y hy => hx y (List.mem_cons_of_mem x hy)
      have := ih v hrest
      simpa [handleRejections, responseRejected_teardown x _ hx1] using this
  have he := h e (List.mem_cons_self e errs)
  have hrest : ∀ y ∈ errs, isUnauthorized y = true :=
    fun y hy => h y (List.mem_cons_of_mem e hy)
  have hall : handleRejections (e :: errs) w
      = { w with store := { token := none }, href := "/login" } := by
    have := key errs w hrest
    simpa [handleRejections, responseRejected_teardown e w he] using this
  rw [hall, responseRejected_teardown e w he]
  exact ⟨rfl, rfl, rfl⟩

theorem teardown_idempotent_witness :
    handleRejections
        [failure (some 401) (getConfig "/job/all"), failure (some 401) (getConfig "/auth/me"),
         failure (some 401) (getConfig "/applications/all")] signedInWorld
      = (responseRejected (failure (some 401) (getConfig "/job/all")) signedInWorld).2 :=
  (teardown_idempotent (failure (some 401) (getConfig "/job/all"))
    [failure (some 401) (getConfig "/auth/me"),
     failure (some 401) (getConfig "/applications/all")] signedInWorld
    (by
      intro x hx
      simp only [List.mem_cons, List.mem_singleton, List.not_mem_nil, or_false] at hx
      rcases hx with rfl | rfl | rfl <;> rfl)).1

/-! ## ApplicationWorkflowGuard and cancellation -/

/-- C16: for every job id, every prior view state and every fetched job record with
`has_applied = true`, when the session user has role `"applicant"` and the view has not
been unmounted, the `ApplyJob` load performs exactly one navigation: to
`/jobs/<jobId>/application`, with `replace` set. -/
theorem applyJob_load_redirects (user j : JsVal) (jobId : String) (v : ApplyJobView)
    (hrole : optProp user "role" = JsVal.str "applicant")
    (happlied : optProp j "has_applied" = JsVal.bool true) :
    (ApplyJob.load user jobId false (Except.ok j) v).navigations =
      v.navigations ++ [{ path := "/jobs/" ++ jobId ++ "/application", replace := true }] := by
  rw [applyJob_load_applied user j jobId v hrole happlied]

theorem applyJob_load_redirects_witness :
    (ApplyJob.load profileA "7" false (Except.ok appliedJob) ApplyJobView.initial).navigations
      = [{ path := "/jobs/7/application", replace := true }] :=
  applyJob_load_redirects profileA appliedJob "7" ApplyJobView.initial rfl rfl

/-- C17, as stated, fails on the code: for the applicant `profileA` and a job with
`has_applied = true`, the view state the load leaves behind has the job set and
`loading = false`, and the render decision on it is the apply form. -/
theorem applyJob_render_counterexample :
    (ApplyJob.load profileA "7" false (Except.ok appliedJob) ApplyJobView.initial).job
      = appliedJob ∧
    (ApplyJob.load profileA "7" false (Except.ok appliedJob) ApplyJobView.initial).loading
      = false ∧
    (ApplyJob.load profileA "7" false (Except.ok appliedJob) ApplyJobView.initial).err = "" ∧
    ApplyJob.render
        (ApplyJob.load profileA "7" false (Except.ok appliedJob) ApplyJobView.initial)
      = ApplyJobScreen.applyForm := by
  rw [applyJob_load_applied profileA appliedJob "7" ApplyJobView.initial rfl rfl]
  exact ⟨rfl, rfl, rfl, rfl⟩

/-- C17, amended: given a job record with `has_applied = true` and a session with role
`"applicant"` (view still mounted), the `ApplyJob` load performs the replacing navigation
to the existing-application path and leaves the view state `job` = the record,
`loading = false`, `err = ""`; the render decision on that state is the apply form, so
the form is avoided by the navigation replacing the view, not by the view state. -/
theorem applyJob_load_state_after_redirect (user j : JsVal) (jobId : String)
    (v : ApplyJobView)
    (hrole : optProp user "role" = JsVal.str "applicant")
    (happlied : optProp j "has_applied" = JsVal.bool true) :
    (ApplyJob.load user jobId false (Except.ok j) v).navigations =
      v.navigations ++ [{ path := "/jobs/" ++ jobId ++ "/application", replace := true }] ∧
    (ApplyJob.load user jobId false (Except.ok j) v).job = j ∧
    (ApplyJob.load user jobId false (Except.ok j) v).loading = false ∧
    (ApplyJob.load user jobId false (Except.ok j) v).err = "" ∧
    ApplyJob.render (ApplyJob.load user jobId false (Except.ok j) v)
      = ApplyJobScreen.applyForm := by
  have hj := truthy_of_optProp_true j "has_applied" happlied
  rw [applyJob_load_applied user j jobId v hrole happlied]
  refine ⟨rfl, rfl, rfl, rfl, ?_⟩
  simp [ApplyJob.render, hj]

theorem applyJob_load_state_after_redirect_witness :
    (ApplyJob.load profileA "7" false (Except.ok appliedJob) ApplyJobView.initial).navigations
      = [{ path := "/jobs/7/application", replace := true }] ∧
    ApplyJob.render
        (ApplyJob.load profileA "7" false (Except.ok appliedJob) ApplyJobView.initial)
      = ApplyJobScreen.applyForm :=
  have h := applyJob_load_state_after_redirect profileA appliedJob "7" ApplyJobView.initial
    rfl rfl
  ⟨h.1, h.2.2.2.2⟩

/-- C18: for every fetched job, whatever its `has_applied` value, and whether or not the
view is still mounted: if the session user is absent, or its role is not `"applicant"`,
or no job was found (the fetch returned a falsy value), the `ApplyJob` load performs no
navigation. -/
theorem applyJob_load_no_redirect (user j : JsVal) (jobId : String) (cancelled : Bool)
    (v : ApplyJobView)
    (h : user = JsVal.null ∨ optProp user "role" ≠ JsVal.str "applicant" ∨ truthy j = false) :
    (ApplyJob.load user jobId cancelled (Except.ok j) v).navigations = v.navigations := by
  have hcase : strictEqStr (optProp user "role") "applicant" = false ∨ truthy j = false := by
    rcases h with h | h | h
    · left
      subst h
      rfl
    · exact Or.inl (strictEqStr_false _ _ h)
    · exact Or.inr h
  unfold ApplyJob.load ApplyJob.loadResume
  rcases hcase with hr | hj
  · by_cases hj : truthy j = true
    · cases cancelled <;>
        simp [hj, hr, applyJob_loadFinally_navigations, ApplyJob.loadStart]
    · cases cancelled <;>
        simp [hj, applyJob_loadFinally_navigations, ApplyJob.loadStart]
  · cases cancelled <;>
      simp [hj, applyJob_loadFinally_navigations, ApplyJob.loadStart]

theorem applyJob_load_no_redirect_witness :
    (ApplyJob.load JsVal.null "7" false (Except.ok appliedJob)
        ApplyJobView.initial).navigations = [] ∧
    (ApplyJob.load profileM "7" false (Except.ok appliedJob)
        ApplyJobView.initial).navigations = [] ∧
    (ApplyJob.load profileA "7" false (Except.ok JsVal.null)
        ApplyJobView.initial).navigations = [] :=
  ⟨applyJob_load_no_redirect JsVal.null appliedJob "7" false ApplyJobView.initial
      (Or.inl rfl),
   applyJob_load_no_redirect profileM appliedJob "7" false ApplyJobView.initial
      (Or.inr (Or.inl (by simp [optProp, lookupField, profileM]))),
   applyJob_load_no_redirect profileA JsVal.null "7" false ApplyJobView.initial
      (Or.inr (Or.inr rfl))⟩

/-- C19: in `ApplyJob`, when the view has been unmounted (`cancelled` set) while the job
fetch was outstanding, then for every session user, job id and view state, and whatever
the fetch returns or throws, the rest of the load leaves the view state as it is: `job`,
`err`, `loading` and `success` keep their values and no navigation is performed. -/
theorem applyJob_load_cancelled (user : JsVal) (jobId : String)
    (outcome : Except AxiosError JsVal) (v : ApplyJobView) :
    ApplyJob.loadResume user jobId true outcome v = v := by
  cases outcome with
  | error e => rfl
  | ok j =>
    by_cases hj : truthy j = true
    · simp [ApplyJob.loadResume, ApplyJob.loadFinally, hj]
    · simp [ApplyJob.loadResume, ApplyJob.loadFinally, hj]

/-- C20 fails on the code: with `ApplicationDetails` unmounted while the job fetch is
outstanding, a job fetch that succeeds is followed by the unguarded
`setAppLoading(true)`: the view's `appLoading` goes from `false` to `true`, for every
fetched job and every view state. -/
theorem details_load_cancelled_updates (j : JsVal) (v : DetailsView) :
    (ApplicationDetails.loadAfterJob true (Except.ok j) v).1 = { v with appLoading := true } ∧
    (ApplicationDetails.loadStart DetailsView.initial).appLoading = false ∧
    (ApplicationDetails.loadAfterJob true (Except.ok appliedJob)
      (ApplicationDetails.loadStart DetailsView.initial)).1.appLoading = true :=
  ⟨rfl, rfl, rfl⟩

/-! ## Login call and access guards -/

/-- C21 fails on the code: `login(payload)` always hands two POST requests to
`/auth/login` to the network, for every payload, world and network; and when the first
one fails (here with status 500) the failure is swallowed, a second request is issued
and its data is what the caller gets. -/
theorem login_posts_twice (net : Net) (payload : JsVal) (w : World) :
    (login net payload w).2.sent =
      w.sent ++
        [requestInterceptor w.store (postConfig "/auth/login" payload),
         requestInterceptor (request net (postConfig "/auth/login" payload) w).2.store
           (postConfig "/auth/login" payload)] ∧
    (login net payload w).2.sent.length = w.sent.length + 2 ∧
    (login (netFirstFails tokenData) credentials (freshWorld none)).1 = Except.ok tokenData ∧
    (login (netFirstFails tokenData) credentials (freshWorld none)).2.sent =
      [postConfig "/auth/login" credentials, postConfig "/auth/login" credentials] := by
  have hw : (login net payload w).2 =
      (request net (postConfig "/auth/login" payload)
        (request net (postConfig "/auth/login" payload) w).2).2 := by
    simp only [login]
    generalize request net (postConfig "/auth/login" payload)
      (request net (postConfig "/auth/login" payload) w).2 = r
    rcases r with ⟨r, w2⟩
    cases r <;> rfl
  have hs : (login net payload w).2.sent =
      w.sent ++
        [requestInterceptor w.store (postConfig "/auth/login" payload),
         requestInterceptor (request net (postConfig "/auth/login" payload) w).2.store
           (postConfig "/auth/login" payload)] := by
    rw [hw, request_sent, request_sent]
    simp
  refine ⟨hs, ?_, rfl, rfl⟩
  rw [hs]
  simp

/-- C22: `RequireAuth` as a function of the session state: while `loading` is true it
decides nothing (the placeholder, never a redirect); once `loading` is false it
redirects to the login entry point if and only if `user` is absent, and renders the
wrapped view otherwise. -/
theorem requireAuth_decision (user : JsVal) (loading : Bool) :
    (loading = true → RequireAuth user loading = GuardDecision.placeholder ∧
      RequireAuth user loading ≠ GuardDecision.redirectToLogin) ∧
    (loading = false →
      (RequireAuth user loading = GuardDecision.redirectToLogin ↔ user = JsVal.null) ∧
      (user ≠ JsVal.null → RequireAuth user loading = GuardDecision.renderView)) := by
  constructor
  · intro h
    subst h
    exact ⟨rfl, by simp [RequireAuth]⟩
  · intro h
    subst h
    cases user <;> simp [RequireAuth]

theorem requireAuth_decision_witness :
    RequireAuth profileA true = GuardDecision.placeholder ∧
    RequireAuth JsVal.null false = GuardDecision.redirectToLogin ∧
    RequireAuth profileA false = GuardDecision.renderView :=
  ⟨((requireAuth_decision profileA true).1 rfl).1,
   ((requireAuth_decision JsVal.null false).2 rfl).1.2 rfl,
   ((requireAuth_decision profileA false).2 rfl).2 (by simp [profileA])⟩

/-- C23: `RequireRole("hiring_manager")`, once `loading` is false, renders the protected
view if and only if `user` is present with role `"hiring_manager"`; with `user` present
and any other role it yields the access-denied state, which is not a redirect; with
`user` absent it redirects to login. -/
theorem requireRole_decision (user : JsVal) :
    (RequireRole "hiring_manager" user false = GuardDecision.renderView ↔
      user ≠ JsVal.null ∧ optProp user "role" = JsVal.str "hiring_manager") ∧
    (user ≠ JsVal.null → optProp user "role" ≠ JsVal.str "hiring_manager" →
      RequireRole "hiring_manager" user false = GuardDecision.accessDenied ∧
      RequireRole "hiring_manager" user false ≠ GuardDecision.redirectToLogin) ∧
    (user = JsVal.null →
      RequireRole "hiring_manager" user false = GuardDecision.redirectToLogin) := by
  have key : ∀ v : JsVal, strictEqStr v "hiring_manager" = true ↔
      v = JsVal.str "hiring_manager" := by
    intro v
    cases v <;> simp [strictEqStr]
  refine ⟨?_, ?_, ?_⟩
  · cases user <;> simp [RequireRole, key]
  · intro hu hr
    have hf := strictEqStr_false _ _ hr
    cases user <;> simp_all [RequireRole]
  · intro hu
    subst hu
    rfl

theorem requireRole_decision_witness :
    RequireRole "hiring_manager" profileM false = GuardDecision.renderView ∧
    RequireRole "hiring_manager" profileA false = GuardDecision.accessDenied ∧
    RequireRole "hiring_manager" JsVal.null false = GuardDecision.redirectToLogin :=
  ⟨(requireRole_decision profileM).1.2 ⟨by simp [profileM], rfl⟩,
   ((requireRole_decision profileA).2.1 (by simp [profileA])
      (by simp [profileA, optProp, lookupField])).1,
   (requireRole_decision JsVal.null).2.2 rfl⟩

/-! ## Forms -/

/-- C24 fails on the code: the salary the post-job form sends is `null` or the trimmed
input string, never a number. With `50000` typed (a value the `onChange` accepts) the
payload carries the string `"50000"`. -/
theorem postJob_salary_is_string :
    PostJob.salaryOnChange "50000" "" = "50000" ∧
    PostJob.onSubmitPayload postJobForm =
      some (JsVal.obj
        [("title", JsVal.str "Engineer"), ("description", JsVal.str "Build things"),
         ("location", JsVal.str "London"), ("salary", JsVal.str "50000")]) ∧
    (∀ (salary : String) (n : Int), PostJob.salaryValue salary ≠ JsVal.num n) := by
  refine ⟨by decide, rfl, ?_⟩
  intro salary n h
  unfold PostJob.salaryValue at h
  split at h <;> cases h

/-- C26: `onApply` calls `applyToJob` exactly when all submit requirements hold: the user
is present with role `"applicant"`, the trimmed full name and trimmed email are
non-empty and a CV is attached. Then it sends, for the route's job id, the trimmed
`full_name` and `email`, `phone` and `cover_letter` as their trimmed values or
`undefined` when blank, and the CV. In every other case it ends with a non-empty error
message and without calling `applyToJob`. -/
theorem onApply_requirements (user : JsVal) (jobId : String) (form : ApplyForm) :
    (∀ (id : String) (data : JsVal),
      ApplyJob.onApply user jobId form = ApplyAttempt.submitted id data →
      (user ≠ JsVal.null ∧ truthy user = true ∧
        optProp user "role" = JsVal.str "applicant" ∧
        jsTrim form.fullName ≠ "" ∧ jsTrim form.email ≠ "" ∧ truthy form.cvFile = true) ∧
      id = jobId ∧
      data = JsVal.obj
        [("full_name", JsVal.str (jsTrim form.fullName)),
         ("email", JsVal.str (jsTrim form.email)),
         ("phone", orUndefined (jsTrim form.phone)),
         ("cover_letter", orUndefined (jsTrim form.coverLetter)),
         ("cv", form.cvFile)] ∧
      (jsTrim form.phone = "" → optProp data "phone" = JsVal.undefined) ∧
      (jsTrim form.coverLetter = "" → optProp data "cover_letter" = JsVal.undefined)) ∧
    (truthy user = true → optProp user "role" = JsVal.str "applicant" →
      jsTrim form.fullName ≠ "" → jsTrim form.email ≠ "" → truthy form.cvFile = true →
      ∃ data, ApplyJob.onApply user jobId form = ApplyAttempt.submitted jobId data) ∧
    (¬ (truthy user = true ∧ optProp user "role" = JsVal.str "applicant" ∧
        jsTrim form.fullName ≠ "" ∧ jsTrim form.email ≠ "" ∧ truthy form.cvFile = true) →
      ∃ err, err ≠ "" ∧ ApplyJob.onApply user jobId form = ApplyAttempt.rejected err) := by
  have key : ∀ v : JsVal, strictEqStr v "applicant" = true ↔ v = JsVal.str "applicant" := by
    intro v
    cases v <;> simp [strictEqStr]
  by_cases hu : truthy user = true
  · by_cases hr : optProp user "role" = JsVal.str "applicant"
    · have hs : strictEqStr (optProp user "role") "applicant" = true := (key _).2 hr
      by_cases hn : jsTrim form.fullName = ""
      · refine ⟨?_, ?_, ?_⟩
        · intro id data h
          simp [ApplyJob.onApply, hu, hs, hn] at h
        · intro _ _ h
          exact absurd hn h
        · intro _
          exact ⟨"Full name and email are required.", by decide, by simp [ApplyJob.onApply, hu, hs, hn]⟩
      · by_cases he : jsTrim form.email = ""
        · refine ⟨?_, ?_, ?_⟩
          · intro id data h
            simp [ApplyJob.onApply, hu, hs, he] at h
          · intro _ _ _ h
            exact absurd he h
          · intro _
            exact ⟨"Full name and email are required.", by decide, by simp [ApplyJob.onApply, hu, hs, he]⟩
        · by_cases hc : truthy form.cvFile = true
          · have hnull : user ≠ JsVal.null := by
              intro h
              rw [h] at hu
              cases hu
            have hval : ApplyJob.onApply user jobId form =
                ApplyAttempt.submitted jobId
                  (JsVal.obj
                    [("full_name", JsVal.str (jsTrim form.fullName)),
                     ("email", JsVal.str (jsTrim form.email)),
                     ("phone", orUndefined (jsTrim form.phone)),
                     ("cover_letter", orUndefined (jsTrim form.coverLetter)),
                     ("cv", form.cvFile)]) := by
              simp [ApplyJob.onApply, hu, hs, hn, he, hc]
            refine ⟨?_, ?_, ?_⟩
            · intro id data h
              rw [hval] at h
              injection h with h1 h2
              subst h1
              subst h2
              refine ⟨⟨hnull, hu, hr, hn, he, hc⟩, rfl, rfl, ?_, ?_⟩
              · intro hp
                simp [optProp, lookupField, orUndefined, hp]
              · intro hp
                simp [optProp, lookupField, orUndefined, hp]
            · intro _ _ _ _ _
              exact ⟨_, hval⟩
            · intro h
              exact absurd ⟨hu, hr, hn, he, hc⟩ h
          · refine ⟨?_, ?_, ?_⟩
            · intro id data h
              simp [ApplyJob.onApply, hu, hs, hn, he, hc] at h
            · intro _ _ _ _ h
              exact absurd h hc
            · intro _
              exact ⟨"Please attach a CV to apply.", by decide, by simp [ApplyJob.onApply, hu, hs, hn, he, hc]⟩
    · have hs : strictEqStr (optProp user "role") "applicant" = false :=
        strictEqStr_false _ _ hr
      refine ⟨?_, ?_, ?_⟩
      · intro id data h
        simp [ApplyJob.onApply, hu, hs] at h
      · intro _ h
        exact absurd h hr
      · intro _
        exact ⟨"Only applicants can apply to jobs. Please login with an applicant account.", by decide, by simp [ApplyJob.onApply, hu, hs]⟩
  · refine ⟨?_, ?_, ?_⟩
    · intro id data h
      simp [ApplyJob.onApply, hu] at h
    · intro h
      exact absurd h hu
    · intro _
      exact ⟨"Please login to apply", by decide, by simp [ApplyJob.onApply, hu]⟩

theorem onApply_requirements_witness :
    (∃ data, ApplyJob.onApply profileA "7" applyForm = ApplyAttempt.submitted "7" data) ∧
    (∃ err, err ≠ "" ∧
      ApplyJob.onApply profileM "7" applyForm = ApplyAttempt.rejected err) :=
  ⟨(onApply_requirements profileA "7" applyForm).2.1 rfl rfl (by decide) (by decide) rfl,
   (onApply_requirements profileM "7" applyForm).2.2
     (by
       intro h
       have h2 := h.2.1
       simp [profileM, optProp, lookupField] at h2)⟩

/-- C27: after a failed submission the value passed to `setErr` in the `catch` block of
`onApply` is never empty, for every error (with or without response, whatever the
body): it is the general message when there is one, else the joined field error texts
when they are not empty, else `"Failed to submit application."`. -/
theorem catchMessage_nonempty (error : AxiosError) :
    ApplyJob.catchMessage error ≠ "" ∧
    ((ApplyJob.catchParts error).1 ≠ "" →
      ApplyJob.catchMessage error = (ApplyJob.catchParts error).1) ∧
    ((ApplyJob.catchParts error).1 = "" →
      String.intercalate " " ((ApplyJob.catchParts error).2.map fun kv => kv.2) = "" →
      ApplyJob.catchMessage error = "Failed to submit application.") := by
  unfold ApplyJob.catchMessage
  refine ⟨?_, ?_, ?_⟩
  · simp only []
    split
    · assumption
    · split
      · assumption
      · decide
  · intro h
    simp [h]
  · intro h1 h2
    simp [h1, h2]

theorem catchMessage_nonempty_witness :
    ApplyJob.catchMessage (failureWith 400 (JsVal.obj [("detail", JsVal.str "Already applied")]))
      = "Already applied" ∧
    ApplyJob.catchMessage (failureWith 500 (JsVal.obj []))
      = "Failed to submit application." ∧
    ApplyJob.catchMessage silentFailure ≠ "" :=
  ⟨(catchMessage_nonempty _).2.1 (by decide),
   (catchMessage_nonempty (failureWith 500 (JsVal.obj []))).2.2 (by decide) (by decide),
   (catchMessage_nonempty silentFailure).1⟩

/-! ## Job fetch and job list -/

/-- C25, as stated, fails on the code: when the fallback list holds `null`, the search
reads `j.id` of it and throws. For the list `[null]`, in which no element matches, the
result is not `undefined` but a `TypeError`; for `[null, job 7]` the first job with id
`"7"` is not returned either. -/
theorem fetchJobById_fallback_counterexample :
    ((fetchJobById (netFirstFails (JsVal.arr [JsVal.null])) "7" (freshWorld none)).1
        = Except.error Thrown.typeError ∧
      ¬ (fetchJobById (netFirstFails (JsVal.arr [JsVal.null])) "7" (freshWorld none)).1
        = Except.ok JsVal.undefined) ∧
    ((fetchJobById (netFirstFails (JsVal.arr [JsVal.null, openJob])) "7"
        (freshWorld none)).1 = Except.error Thrown.typeError ∧
      ¬ (fetchJobById (netFirstFails (JsVal.arr [JsVal.null, openJob])) "7"
        (freshWorld none)).1 = Except.ok openJob) := by
  have h1 : (fetchJobById (netFirstFails (JsVal.arr [JsVal.null])) "7"
      (freshWorld none)).1 = Except.error Thrown.typeError := rfl
  have h2 : (fetchJobById (netFirstFails (JsVal.arr [JsVal.null, openJob])) "7"
      (freshWorld none)).1 = Except.error Thrown.typeError := rfl
  refine ⟨⟨h1, ?_⟩, h2, ?_⟩
  · rw [h1]
    intro h
    cases h
  · rw [h2]
    intro h
    cases h

/-- C25, amended: `fetchJobById(jobId)` first requests the dedicated endpoint
`/job/<jobId>` and, when that succeeds, returns its data after this single request. When
it fails, with whatever error, the full list `/job/all` is requested next: a failure of
that request is what the caller gets; a result that is not an array gives `null`; an
array is searched in order: the first element `j` with `String(j.id)` equal to `jobId`
is returned when no element before it is `null` or `undefined`, `undefined` is returned
when no element is `null` or `undefined` and none matches, and a `null` or `undefined`
element reached before a match makes the call throw a `TypeError`. -/
theorem fetchJobById_fallback (net : Net) (jobId : String) (w : World) :
    (∀ res, answer net (getConfig ("/job/" ++ jobId)) w = Except.ok res →
      (fetchJobById net jobId w).1 = Except.ok res.data ∧
      (fetchJobById net jobId w).2.sent =
        w.sent ++ [requestInterceptor w.store (getConfig ("/job/" ++ jobId))]) ∧
    (∀ e1, answer net (getConfig ("/job/" ++ jobId)) w = Except.error e1 →
      (fetchJobById net jobId w).2.sent =
        w.sent ++
          [requestInterceptor w.store (getConfig ("/job/" ++ jobId)),
           requestInterceptor (request net (getConfig ("/job/" ++ jobId)) w).2.store
             (getConfig "/job/all")] ∧
      (∀ e2,
        answer net (getConfig "/job/all") (request net (getConfig ("/job/" ++ jobId)) w).2
          = Except.error e2 →
        (fetchJobById net jobId w).1 = Except.error (Thrown.axios e2)) ∧
      (∀ res2,
        answer net (getConfig "/job/all") (request net (getConfig ("/job/" ++ jobId)) w).2
          = Except.ok res2 →
        (∀ items, res2.data = JsVal.arr items →
          (∀ pre j post, items = pre ++ j :: post →
            (∀ x ∈ pre, isNullish x = false ∧ jsString (optProp x "id") ≠ jobId) →
            (isNullish j = false → jsString (optProp j "id") = jobId →
              (fetchJobById net jobId w).1 = Except.ok j) ∧
            (isNullish j = true →
              (fetchJobById net jobId w).1 = Except.error Thrown.typeError)) ∧
          ((∀ x ∈ items, isNullish x = false ∧ jsString (optProp x "id") ≠ jobId) →
            (fetchJobById net jobId w).1 = Except.ok JsVal.undefined)) ∧
        ((∀ items, res2.data ≠ JsVal.arr items) →
          (fetchJobById net jobId w).1 = Except.ok JsVal.null))) := by
  constructor
  · intro res h
    simp [fetchJobById, request_ok net _ w res h]
  · intro e1 h1
    have hw1 := request_error net _ w e1 h1
    refine ⟨?_, ?_, ?_⟩
    · have hs1 := request_sent net (getConfig ("/job/" ++ jobId)) w
      have hs2 := request_sent net (getConfig "/job/all")
        (request net (getConfig ("/job/" ++ jobId)) w).2
      rw [hs1] at hs2
      have hw : (fetchJobById net jobId w).2 =
          (request net (getConfig "/job/all")
            (request net (getConfig ("/job/" ++ jobId)) w).2).2 := by
        simp only [fetchJobById, fetchAllJobs, hw1]
        generalize request net (getConfig "/job/all") _ = r
        rcases r with ⟨r, w2⟩
        cases r <;> rfl
      rw [hw, hs2]
      simp
    · intro e2 h2
      have hw2 := request_error net _ _ e2 h2
      rw [hw1] at hw2
      simp [fetchJobById, fetchAllJobs, hw1, hw2]
    · intro res2 h2
      have hw2 := request_ok net _ _ res2 h2
      rw [hw1] at hw2
      constructor
      · intro items hitems
        have hres : (fetchJobById net jobId w).1 = findJob jobId items := by
          simp [fetchJobById, fetchAllJobs, hw1, hw2, hitems]
        rw [hres]
        constructor
        · intro pre j post hsplit hpre
          rw [hsplit, findJob_split jobId pre j post hpre]
          constructor
          · intro hj hid
            simp [hj, hid]
          · intro hj
            simp [hj]
        · intro hall
          exact findJob_no_match jobId items hall
      · intro hno
        simp only [fetchJobById, fetchAllJobs, hw1, hw2]

theorem fetchJobById_fallback_witness :
    (fetchJobById netFallback "7" (freshWorld none)).1 = Except.ok openJob :=
  ((((fetchJobById_fallback netFallback "7" (freshWorld none)).2 _ rfl).2.2
      { status := 200, data := jobList } rfl).1 _ rfl).1
    [JsVal.obj [("id", JsVal.num 3), ("title", JsVal.str "Analyst")]] openJob [] rfl
    (by
      intro x hx
      simp only [List.mem_singleton] at hx
      subst hx
      exact ⟨rfl, by decide⟩)
    |>.1 rfl (by decide)

/-- C30: in the jobs list, for every job whose `has_applied` is truthy and every user who
is not a hiring manager, the card's action is the link to
`/jobs/<id>/application`, which is not the apply path `/jobs/<id>`, and it is never the
apply link; for every job (a value other than `null` and `undefined`) the apply link,
to `/jobs/<id>`, is offered exactly when the user is not a hiring manager and
`has_applied` is falsy. -/
theorem cardAction_links (user job : JsVal) :
    (truthy (optProp job "has_applied") = true →
      optProp user "role" ≠ JsVal.str "hiring_manager" →
      JobsList.cardAction user job =
        some (CardAction.viewApplication
          ("/jobs/" ++ jsString (optProp job "id") ++ "/application")) ∧
      "/jobs/" ++ jsString (optProp job "id") ++ "/application"
        ≠ "/jobs/" ++ jsString (optProp job "id") ∧
      ∀ p, JobsList.cardAction user job ≠ some (CardAction.viewApply p)) ∧
    (isNullish job = false →
      ((∃ p, JobsList.cardAction user job = some (CardAction.viewApply p)) ↔
        (optProp user "role" ≠ JsVal.str "hiring_manager" ∧
          truthy (optProp job "has_applied") = false)) ∧
      (∀ p, JobsList.cardAction user job = some (CardAction.viewApply p) →
        p = "/jobs/" ++ jsString (optProp job "id"))) := by
  have key : ∀ v : JsVal, strictEqStr v "hiring_manager" = true ↔
      v = JsVal.str "hiring_manager" := by
    intro v
    cases v <;> simp [strictEqStr]
  have hlen : ∀ a : String, a ++ "/application" ≠ a := by
    intro a h
    have h2 := congrArg String.length h
    rw [String.length_append] at h2
    have h3 : "/application".length = 12 := by decide
    omega
  constructor
  · intro ha hr
    have hs := strictEqStr_false _ _ hr
    have hn : isNullish job = false := by
      cases job <;> first | rfl | simp [optProp, truthy] at ha
    refine ⟨by simp [JobsList.cardAction, hn, hs, ha], hlen _, ?_⟩
    intro p
    simp [JobsList.cardAction, hn, hs, ha]
  · intro hn
    by_cases hr : optProp user "role" = JsVal.str "hiring_manager"
    · have hs := (key _).2 hr
      have hval : JobsList.cardAction user job =
          some (CardAction.viewApplications
            ("/jobs/" ++ jsString (optProp job "id") ++ "/applications")
            (jsString (optProp job "id"))) := by
        simp [JobsList.cardAction, hn, hs]
      rw [hval]
      simp [hr]
    · have hs := strictEqStr_false _ _ hr
      by_cases ha : truthy (optProp job "has_applied") = true
      · simp [JobsList.cardAction, hn, hs, hr, ha]
      · simp [JobsList.cardAction, hn, hs, hr, ha]

theorem cardAction_links_witness :
    JobsList.cardAction profileA appliedJob =
      some (CardAction.viewApplication "/jobs/7/application") ∧
    (∃ p, JobsList.cardAction profileA openJob = some (CardAction.viewApply p)) :=
  ⟨((cardAction_links profileA appliedJob).1 rfl
      (by simp [profileA, optProp, lookupField])).1,
   ((cardAction_links profileA openJob).2 rfl).1.2
     ⟨by simp [profileA, optProp, lookupField], rfl⟩⟩

/-! ## Chat message formatting -/

/-- C28: `formatMessage` returns `null` for an absent or empty text and returns elements
for every other text: the loop ends. Its blocks cover the lines of the text each exactly
once and in order (their lines, concatenated, are the lines of the text); every block
starts at the index where the blocks before it end and covers at least one line, so
each iteration moves the index forward; and there are at most as many elements as
lines. -/
theorem formatMessage_scan (text : String) :
    formatMessage none = none ∧
    formatMessage (some "") = none ∧
    (text ≠ "" →
      formatMessage (some text) =
        some ((scanBlocks (jsSplit '\n' text) 0).map Block.render) ∧
      ((scanBlocks (jsSplit '\n' text) 0).map Block.lines).flatten = jsSplit '\n' text ∧
      (∀ pre b post, scanBlocks (jsSplit '\n' text) 0 = pre ++ b :: post →
        b.index = ((pre.map Block.lines).flatten).length ∧ 1 ≤ b.lines.length) ∧
      (∀ elements, formatMessage (some text) = some elements →
        elements.length ≤ (jsSplit '\n' text).length)) := by
  refine ⟨rfl, rfl, ?_⟩
  intro ht
  have hf : formatMessage (some text) =
      some ((scanBlocks (jsSplit '\n' text) 0).map Block.render) := by
    simp [formatMessage, ht]
  refine ⟨hf, ?_, ?_, ?_⟩
  · simpa using scanBlocks_cover (jsSplit '\n' text) 0
  · intro pre b post hsplit
    simpa using scanBlocks_chain (jsSplit '\n' text) 0 pre b post hsplit
  · intro elements he
    rw [hf] at he
    injection he with he
    subst he
    simpa using scanBlocks_length (jsSplit '\n' text) 0

theorem formatMessage_scan_witness :
    formatMessage (some "Jobs:\n| id | title |\n|---|---|\n| 7 | Engineer |\n| note") =
      some ((scanBlocks
        (jsSplit '\n' "Jobs:\n| id | title |\n|---|---|\n| 7 | Engineer |\n| note") 0).map
          Block.render) ∧
    ((scanBlocks
        (jsSplit '\n' "Jobs:\n| id | title |\n|---|---|\n| 7 | Engineer |\n| note") 0).map
          Block.lines).flatten = chatLines :=
  have h := (formatMessage_scan
    "Jobs:\n| id | title |\n|---|---|\n| 7 | Engineer |\n| note").2.2 (by decide)
  ⟨h.1, h.2.1.trans (by decide)⟩

/-- C29: at a line whose trimmed form starts with `|`, the table lines are the maximal
run of consecutive lines containing `|`: all of them contain `|`, they are followed by
the rest of the lines, and the line after the run, if any, contains none. A run of fewer
than two lines is pushed as a regular line. A run of at least two lines is pushed as one
table block and the scan continues after the run; when the second line of the run is
the first one containing `---`, the header cells are the trimmed non-empty cells of the
first line and the rows are the cells of the lines after the separator, run length
minus two of them. -/
theorem scanBlocks_table (lines : List String) (i : Nat) (line : String)
    (hline : lines[i]? = some line) (hstart : isTableStart line = true) :
    ((∀ l ∈ (lines.drop i).takeWhile hasPipe, hasPipe l = true) ∧
      (lines.drop i).takeWhile hasPipe ++
          lines.drop (i + ((lines.drop i).takeWhile hasPipe).length) = lines.drop i ∧
      (∀ next, lines[i + ((lines.drop i).takeWhile hasPipe).length]? = some next →
        hasPipe next = false)) ∧
    (((lines.drop i).takeWhile hasPipe).length < 2 →
      scanBlocks lines i = Block.regularLine i line :: scanBlocks lines (i + 1)) ∧
    (2 ≤ ((lines.drop i).takeWhile hasPipe).length →
      scanBlocks lines i =
        Block.tableLines i ((lines.drop i).takeWhile hasPipe) ::
          scanBlocks lines (i + ((lines.drop i).takeWhile hasPipe).length) ∧
      (∀ first second rest, (lines.drop i).takeWhile hasPipe = first :: second :: rest →
        hasDashes first = false → hasDashes second = true →
        first = line ∧
        Block.render (Block.tableLines i ((lines.drop i).takeWhile hasPipe)) =
          Element.table i (tableCells first) (rest.map tableCells) ∧
        (rest.map tableCells).length = ((lines.drop i).takeWhile hasPipe).length - 2)) := by
  refine ⟨⟨?_, ?_, ?_⟩, ?_, ?_⟩
  · intro l hl
    exact List.mem_takeWhile_imp hl
  · have := takeWhile_append_drop hasPipe (lines.drop i)
    rw [List.drop_drop] at this
    exact this
  · intro next hnext
    rw [← List.getElem?_drop] at hnext
    exact takeWhile_next hasPipe (lines.drop i) next hnext
  · intro hshort
    exact scanBlocks_line_step lines i line hline (Or.inr hshort)
  · intro hrun
    refine ⟨scanBlocks_table_step lines i line hline hstart hrun, ?_⟩
    intro first second rest hsplit hfirst hsecond
    obtain ⟨h, hl⟩ := List.getElem?_eq_some_iff.mp hline
    have hhead : first = line := by
      have hd := List.drop_eq_getElem_cons h
      rw [hd, hl] at hsplit
      have hp : hasPipe line = true := by
        unfold isTableStart at hstart
        simp only [Bool.and_eq_true] at hstart
        exact hstart.1
      rw [List.takeWhile_cons, if_pos hp] at hsplit
      injection hsplit with h1 _
      exact h1.symm
    refine ⟨hhead, ?_, ?_⟩
    · rw [hsplit]
      simp [Block.render, dataStartIndex, findIndexOf, hfirst, hsecond]
    · rw [hsplit]
      simp

theorem scanBlocks_table_witness :
    scanBlocks chatLines 1 =
      Block.tableLines 1 ["| id | title |", "|---|---|", "| 7 | Engineer |", "| note"] ::
        scanBlocks chatLines 5 ∧
    Block.render
        (Block.tableLines 1 ["| id | title |", "|---|---|", "| 7 | Engineer |", "| note"]) =
      Element.table 1 ["id", "title"] [["7", "Engineer"], ["note"]] :=
  have h := (scanBlocks_table chatLines 1 "| id | title |" rfl (by decide)).2.2 (by decide)
  ⟨h.1, (h.2 "| id | title |" "|---|---|" ["| 7 | Engineer |", "| note"] rfl
    (by decide) (by decide)).2.1.trans (by decide)⟩

end HiringPlatform
